import Mathlib

/-!
Shallow embedding of the maritime route computation engine of the Globot
repository (routes.ts and the antimeridian handling of the 2D map component),
together with proofs about its specified properties.

JavaScript numbers are modelled as real numbers.  Code that can throw (an
undefined dereference) is modelled with Option, `none` standing for the thrown
exception.
-/

namespace Globot

noncomputable section

open Real

/-- Embeds toRad: degrees to radians. -/
def toRad (d : ℝ) : ℝ := d * π / 180

/-- Embeds JavaScript Math.atan2 on real arguments. -/
def atan2 (y x : ℝ) : ℝ :=
  if 0 < x then arctan (y / x)
  else if x < 0 then (if 0 ≤ y then arctan (y / x) + π else arctan (y / x) - π)
  else if 0 < y then π / 2
  else if y < 0 then -(π / 2)
  else 0

/-- The haversine intermediate value `a` computed inside calculateDistance. -/
def havA (lat1 lon1 lat2 lon2 : ℝ) : ℝ :=
  let dLat := toRad (lat2 - lat1)
  let dLon := toRad (lon2 - lon1)
  sin (dLat / 2) * sin (dLat / 2) +
    cos (toRad lat1) * cos (toRad lat2) * sin (dLon / 2) * sin (dLon / 2)

/-- The remainder of calculateDistance: `R * c` with `c = 2 * atan2 (sqrt a) (sqrt (1-a))`
and `R = 6371`. -/
def distOfA (a : ℝ) : ℝ := 6371 * (2 * atan2 (Real.sqrt a) (Real.sqrt (1 - a)))

/-- Embeds calculateDistance(lat1, lon1, lat2, lon2): haversine great-circle distance. -/
def calculateDistance (lat1 lon1 lat2 lon2 : ℝ) : ℝ :=
  distOfA (havA lat1 lon1 lat2 lon2)

/-- The unrounded sum of leg distances inside calculateTotalDistance
(each leg is calculateDistance(lat1, lng1, lat2, lng2) on consecutive
[lng, lat] waypoints). -/
def pathSum (waypoints : List (ℝ × ℝ)) : ℝ :=
  (waypoints.zip waypoints.tail).foldl
    (fun total pq => total + calculateDistance pq.1.2 pq.1.1 pq.2.2 pq.2.1) 0

/-- Embeds calculateTotalDistance: the summed path length, Math.rounded once at the end. -/
def calculateTotalDistance (waypoints : List (ℝ × ℝ)) : ℤ :=
  round (pathSum waypoints)

/-- Embeds the GlobalPort interface.  `coordinates` is the (longitude, latitude)
pair. -/
structure GlobalPort where
  name : String
  country : String
  coordinates : ℝ × ℝ
  region : String

instance : Inhabited GlobalPort := ⟨⟨"", "", (0, 0), ""⟩⟩

/-- Embeds the MAJOR_PORTS catalog (39 entries, source order preserved). -/
def MAJOR_PORTS : List GlobalPort := [
  ⟨"Rotterdam", "Netherlands", (4.47, 51.92), "Europe"⟩,
  ⟨"Hamburg", "Germany", (9.99, 53.55), "Europe"⟩,
  ⟨"Antwerp", "Belgium", (4.4, 51.22), "Europe"⟩,
  ⟨"Le Havre", "France", (0.11, 49.49), "Europe"⟩,
  ⟨"Barcelona", "Spain", (2.17, 41.38), "Europe"⟩,
  ⟨"Piraeus", "Greece", (23.65, 37.94), "Europe"⟩,
  ⟨"Istanbul", "Turkey", (28.97, 41.01), "Europe"⟩,
  ⟨"Gdansk", "Poland", (18.65, 54.35), "Europe"⟩,
  ⟨"Dubai", "UAE", (55.27, 25.2), "Middle East"⟩,
  ⟨"Jeddah", "Saudi Arabia", (39.19, 21.54), "Middle East"⟩,
  ⟨"Port Said", "Egypt", (32.28, 31.26), "Middle East"⟩,
  ⟨"Haifa", "Israel", (34.99, 32.82), "Middle East"⟩,
  ⟨"Singapore", "Singapore", (103.85, 1.29), "Asia"⟩,
  ⟨"Hong Kong", "China", (114.17, 22.32), "Asia"⟩,
  ⟨"Shanghai", "China", (121.47, 31.23), "Asia"⟩,
  ⟨"Busan", "South Korea", (129.04, 35.18), "Asia"⟩,
  ⟨"Tokyo", "Japan", (139.77, 35.68), "Asia"⟩,
  ⟨"Mumbai", "India", (72.88, 19.08), "Asia"⟩,
  ⟨"Colombo", "Sri Lanka", (79.85, 6.93), "Asia"⟩,
  ⟨"Jakarta", "Indonesia", (106.85, -6.21), "Asia"⟩,
  ⟨"Cape Town", "South Africa", (18.42, -33.92), "Africa"⟩,
  ⟨"Durban", "South Africa", (31.03, -29.86), "Africa"⟩,
  ⟨"Lagos", "Nigeria", (3.39, 6.45), "Africa"⟩,
  ⟨"Djibouti", "Djibouti", (43.15, 11.59), "Africa"⟩,
  ⟨"Mombasa", "Kenya", (39.66, -4.05), "Africa"⟩,
  ⟨"New York", "USA", (-74.01, 40.71), "Americas"⟩,
  ⟨"Los Angeles", "USA", (-118.24, 34.05), "Americas"⟩,
  ⟨"Miami", "USA", (-80.19, 25.76), "Americas"⟩,
  ⟨"Houston", "USA", (-95.36, 29.76), "Americas"⟩,
  ⟨"Santos", "Brazil", (-46.33, -23.96), "Americas"⟩,
  ⟨"Buenos Aires", "Argentina", (-58.38, -34.6), "Americas"⟩,
  ⟨"Panama City", "Panama", (-79.53, 8.98), "Americas"⟩,
  ⟨"Vancouver", "Canada", (-123.12, 49.28), "Americas"⟩,
  ⟨"Sydney", "Australia", (151.21, -33.87), "Oceania"⟩,
  ⟨"Melbourne", "Australia", (144.96, -37.81), "Oceania"⟩,
  ⟨"Auckland", "New Zealand", (174.76, -36.85), "Oceania"⟩,
  ⟨"Suez Canal", "Egypt", (32.35, 30.44), "Middle East"⟩,
  ⟨"Strait of Malacca", "Malaysia", (100.35, 2.5), "Asia"⟩,
  ⟨"Strait of Gibraltar", "Spain", (-5.36, 36.14), "Europe"⟩]

/-- Embeds the Route interface.  riskLevel is one of "high" | "medium" | "low";
distance and estimatedTime are the Math.rounded integers the code stores. -/
structure Route where
  id : String
  name : String
  riskLevel : String
  color : String
  strokeWidth : ℝ
  waypoints : List (ℝ × ℝ)
  waypointNames : List String
  distance : ℤ
  estimatedTime : ℤ
  description : String

instance : Inhabited Route := ⟨⟨"", "", "", "", 0, [], [], 0, 0, ""⟩⟩

/-- Modelled from the spec: the module routeData.ts (the four pre-authored curated
waypoint paths PATH_CAPE_OF_GOOD_HOPE, PATH_SUEZ_CANAL, PATH_PANAMA and
PATH_ARCTIC_NSR imported by routes.ts) is not among the analyzed sources.  Per the
spec they are fixed hand-authored waypoint sequences, so they are abstracted here
as parameters of the development. -/
structure RouteData where
  PATH_CAPE_OF_GOOD_HOPE : List (ℝ × ℝ)
  PATH_SUEZ_CANAL : List (ℝ × ℝ)
  PATH_PANAMA : List (ℝ × ℝ)
  PATH_ARCTIC_NSR : List (ℝ × ℝ)

/-- The distance expression of the findNearestPort loop body:
calculateDistance(coordLat, coordLng, port.coordinates[1], port.coordinates[0]). -/
def portDist (lat lng : ℝ) (p : GlobalPort) : ℝ :=
  calculateDistance lat lng p.coordinates.2 p.coordinates.1

/-- One iteration of the findNearestPort loop.  The state is the current
(nearest, minDistance) pair, minDistance = none standing for Infinity (so the
first non-excluded port always wins the comparison dist < Infinity). -/
def nearStep (excludeNames : List String) (coord : ℝ × ℝ) :
    GlobalPort × Option ℝ → GlobalPort → GlobalPort × Option ℝ
  | (nearest, none), port =>
    if port.name ∈ excludeNames then (nearest, none)
    else (port, some (portDist coord.2 coord.1 port))
  | (nearest, some m), port =>
    if port.name ∈ excludeNames then (nearest, some m)
    else if portDist coord.2 coord.1 port < m then (port, some (portDist coord.2 coord.1 port))
    else (nearest, some m)

/-- Embeds findNearestPort: linear scan of MAJOR_PORTS skipping excluded names,
starting from nearest = MAJOR_PORTS[0] and minDistance = Infinity. -/
def findNearestPort (coord : ℝ × ℝ) (excludeNames : List String := []) : GlobalPort :=
  (MAJOR_PORTS.foldl (nearStep excludeNames coord) (MAJOR_PORTS.headI, none)).1

/-- One iteration of the candidate loop in findIntermediatePorts: compare the
candidate against the running (best, minD) state, minD = none standing for
Infinity. -/
def selStep (lat lng : ℝ) :
    Option GlobalPort × Option ℝ → GlobalPort → Option GlobalPort × Option ℝ
  | (_, none), p => (some p, some (portDist lat lng p))
  | (best, some m), p =>
    if portDist lat lng p < m then (some p, some (portDist lat lng p))
    else (best, some m)

/-- The `best` selection of one slot of findIntermediatePorts: best is initialized
to candidates[0] (undefined, i.e. none, when the pool is empty) and updated by the
loop over all candidates. -/
def selectBest (lat lng : ℝ) (candidates : List GlobalPort) : Option GlobalPort :=
  (candidates.foldl (selStep lat lng) (candidates.head?, none)).1

/-- The candidate pool of one findIntermediatePorts slot: the un-used catalog
ports, narrowed to the preferred regions when that narrowing is non-empty. -/
def fipCandidates (regions : Option (List String)) (used : Finset String) : List GlobalPort :=
  let base := MAJOR_PORTS.filter (fun p => p.name ∉ used)
  match regions with
  | none => base
  | some regs =>
    let regFilter := base.filter (fun p => decide (p.region ∈ regs))
    if regFilter.length ≠ 0 then regFilter else base

/-- The slot loop of findIntermediatePorts, one recursive call per slot index i.
`used` is the running exclusion set of names.  When the candidate pool is empty
the source dereferences undefined (best.name) and throws: modelled as none. -/
def fipGo (origin destination : ℝ × ℝ) (count : ℕ) (regions : Option (List String)) :
    List ℕ → Finset String → Option (List GlobalPort)
  | [], _ => some []
  | i :: rest, used =>
    let ratio : ℝ := (i : ℝ) / ((count : ℝ) + 1)
    let lat := origin.2 + (destination.2 - origin.2) * ratio
    let lng := origin.1 + (destination.1 - origin.1) * ratio
    match selectBest lat lng (fipCandidates regions used) with
    | none => none
    | some best => (fipGo origin destination count regions rest (insert best.name used)).map
        (fun l => best :: l)

/-- Embeds findIntermediatePorts(origin, destination, count, regions?, avoid?):
slot indices run i = 1..count; `used` starts as the names of `avoid`. -/
def findIntermediatePorts (origin destination : ℝ × ℝ) (count : ℕ)
    (regions : Option (List String)) (avoid : List GlobalPort) : Option (List GlobalPort) :=
  fipGo origin destination count regions (List.range' 1 count)
    (avoid.map GlobalPort.name).toFinset

/-- Embeds getDetailedShanghaiHamburgRoutes: the four curated routes, with
distance and ETA computed from the curated paths. -/
def getDetailedShanghaiHamburgRoutes (rd : RouteData) : List Route :=
  let distCape := calculateTotalDistance rd.PATH_CAPE_OF_GOOD_HOPE
  let distSuez := calculateTotalDistance rd.PATH_SUEZ_CANAL
  let distPanama := calculateTotalDistance rd.PATH_PANAMA
  let distArctic := calculateTotalDistance rd.PATH_ARCTIC_NSR
  [⟨"fixed-cape", "Cape of Good Hope (Standard)", "low", "#2ecc71", 3,
      rd.PATH_CAPE_OF_GOOD_HOPE,
      ["Shanghai", "Singapore", "Cape Town", "Rotterdam", "Hamburg"],
      distCape, round ((distCape : ℝ) / 35),
      "Primary safe route via Africa. Avoids Red Sea conflict."⟩,
    ⟨"fixed-suez", "Suez Canal (Red Sea)", "high", "#e74c3c", 3,
      rd.PATH_SUEZ_CANAL,
      ["Shanghai", "Singapore", "Suez Canal", "Hamburg"],
      distSuez, round ((distSuez : ℝ) / 32),
      "Shortest but High Risk due to regional conflict."⟩,
    ⟨"fixed-panama", "Panama Canal (Westbound)", "medium", "#f1c40f", 2.5,
      rd.PATH_PANAMA,
      ["Shanghai", "Panama Canal", "Hamburg"],
      distPanama, round ((distPanama : ℝ) / 38),
      "All-water alternative avoiding Middle East."⟩,
    ⟨"fixed-arctic", "Northern Sea Route (Arctic)", "high", "#3498db", 2,
      rd.PATH_ARCTIC_NSR,
      ["Shanghai", "Bering Strait", "Arctic", "Hamburg"],
      distArctic, round ((distArctic : ℝ) / 25),
      "Seasonal shortcut. Impassable in Winter."⟩]

/-- One synthesized route record of calculateDynamicRoutes: the waypoints are
origin, intermediates, destination; names likewise; distance is the rounded path
sum and the ETA divides by the per-route speed constant. -/
def dynRoute (idS nameS risk colorS : String) (sw speed : ℝ) (descr : String)
    (originPort destPort : GlobalPort) (inters : List GlobalPort) : Route :=
  let waypoints := originPort.coordinates ::
    (inters.map GlobalPort.coordinates ++ [destPort.coordinates])
  let dist := calculateTotalDistance waypoints
  ⟨idS, nameS, risk, colorS, sw, waypoints,
    originPort.name :: (inters.map GlobalPort.name ++ [destPort.name]),
    dist, round ((dist : ℝ) / speed), descr⟩

/-- Embeds calculateDynamicRoutes: three synthesized routes (Standard corridor,
Alternative corridor, Express route).  A thrown exception inside any of the three
findIntermediatePorts calls aborts the whole computation (none). -/
def calculateDynamicRoutes (originPort destPort : GlobalPort) : Option (List Route) :=
  match findIntermediatePorts originPort.coordinates destPort.coordinates 3
      (some ["Africa", "Middle East", "Asia"]) [] with
  | none => none
  | some safeIntermediates =>
    match findIntermediatePorts originPort.coordinates destPort.coordinates 2
        (some ["Europe", "Asia"]) safeIntermediates with
    | none => none
    | some altIntermediates =>
      match findIntermediatePorts originPort.coordinates destPort.coordinates 1
          none (safeIntermediates ++ altIntermediates) with
      | none => none
      | some expressIntermediates =>
        some [dynRoute "dyn-safe-1" "Standard Corridor" "low" "#5a9a7a" 2 35
            "Calculated secure route via major hubs" originPort destPort safeIntermediates,
          dynRoute "dyn-safe-2" "Alternative Corridor" "low" "#6ba889" 2 35
            "Secondary secure routing option" originPort destPort altIntermediates,
          dynRoute "dyn-express" "Express Route" "medium" "#e8a547" 2.5 38
            "Direct routing with moderate risk profile" originPort destPort
            expressIntermediates]

/-- The Shanghai/Hamburg dispatch condition of calculateRoutes (both directions). -/
def isShanghaiHamburg (a b : GlobalPort) : Prop :=
  (a.name = "Shanghai" ∧ b.name = "Hamburg") ∨ (a.name = "Hamburg" ∧ b.name = "Shanghai")

instance (a b : GlobalPort) : Decidable (isShanghaiHamburg a b) := by
  unfold isShanghaiHamburg; infer_instance

/-- Embeds calculateRoutes(origin, destination): resolve both endpoints (the
destination with the origin name excluded), then dispatch between the curated
Shanghai-Hamburg routes and the dynamic synthesis. -/
def calculateRoutes (rd : RouteData) (origin destination : ℝ × ℝ) : Option (List Route) :=
  let originPort := findNearestPort origin
  let destPort := findNearestPort destination [originPort.name]
  if isShanghaiHamburg originPort destPort then
    some (getDetailedShanghaiHamburgRoutes rd)
  else
    calculateDynamicRoutes originPort destPort

/-- Embeds the segment-splitting geometry of WrapAwareLine: a consecutive
waypoint pair is rendered either as the single input segment, or as two
sub-segments meeting the antimeridian (with the deliberate 180.1 overshoot)
at an interpolated crossing latitude. -/
def wrapSegments (src dst : ℝ × ℝ) : List ((ℝ × ℝ) × (ℝ × ℝ)) :=
  let fromLon := src.1
  let fromLat := src.2
  let toLat := dst.2
  let deltaLon := dst.1 - fromLon
  if |deltaLon| > 180 then
    let totalDist := 360 - |deltaLon|
    let distToEdge := if deltaLon < 0 then 180 - fromLon else fromLon + 180
    let ratio := distToEdge / totalDist
    let midLat := fromLat + (toLat - fromLat) * ratio
    let edgeLon1 : ℝ := if deltaLon < 0 then 180.1 else -180.1
    let edgeLon2 : ℝ := if deltaLon < 0 then -180.1 else 180.1
    [(src, (edgeLon1, midLat)), ((edgeLon2, midLat), dst)]
  else
    [(src, dst)]

/-- The intermediate stops of a route: its waypointNames without the two endpoints. -/
def intermediateNames (r : Route) : List String :=
  (r.waypointNames.drop 1).dropLast

/-- The Mode B disjointness property over a calculateDynamicRoutes result: three
routes, no intermediate name repeated within a route, the Alternative corridor
disjoint from the Standard corridor, and the Express intermediates in neither. -/
def modeBDisjoint (o : Option (List Route)) : Prop :=
  ∃ r1 r2 r3, o = some [r1, r2, r3] ∧
    (intermediateNames r1).Nodup ∧ (intermediateNames r2).Nodup ∧
    (intermediateNames r3).Nodup ∧
    (∀ n ∈ intermediateNames r2, n ∉ intermediateNames r1) ∧
    (∀ n ∈ intermediateNames r3, n ∉ intermediateNames r1 ∧ n ∉ intermediateNames r2)

/-- The Rotterdam catalog entry, MAJOR_PORTS[0]. -/
def rotterdamPort : GlobalPort := ⟨"Rotterdam", "Netherlands", (4.47, 51.92), "Europe"⟩

/-- The Hamburg catalog entry. -/
def hamburgPort : GlobalPort := ⟨"Hamburg", "Germany", (9.99, 53.55), "Europe"⟩

/-- The Shanghai catalog entry. -/
def shanghaiPort : GlobalPort := ⟨"Shanghai", "China", (121.47, 31.23), "Asia"⟩

/-- The Singapore catalog entry. -/
def singaporePort : GlobalPort := ⟨"Singapore", "Singapore", (103.85, 1.29), "Asia"⟩

/-- The Strait of Malacca catalog entry. -/
def malaccaPort : GlobalPort := ⟨"Strait of Malacca", "Malaysia", (100.35, 2.5), "Asia"⟩

/-- A concrete RouteData instance used to exercise the curated branch: four
simple paths with the lengths matching the curated waypointNames lists. -/
def rdWitness : RouteData :=
  ⟨[(121.47, 31.23), (103.85, 1.29), (18.42, -33.92), (4.47, 51.92), (9.99, 53.55)],
   [(121.47, 31.23), (103.85, 1.29), (32.35, 30.44), (9.99, 53.55)],
   [(121.47, 31.23), (-79.53, 8.98), (9.99, 53.55)],
   [(121.47, 31.23), (-169.5, 65.7), (33.0, 79.0), (9.99, 53.55)]⟩

/-- The whole catalog except its first entry; used to exhaust the candidate pool
down to a single port. -/
def avoidAllButFirst : List GlobalPort := MAJOR_PORTS.drop 1

/-- Every catalog port name; used to exhaust the candidate pool completely. -/
def allPortNames : List String := MAJOR_PORTS.map GlobalPort.name

/-!  Basic lemmas about the distance function.  -/

lemma atan2_zero_of_pos (x : ℝ) (hx : 0 < x) : atan2 0 x = 0 := by
  unfold atan2
  rw [if_pos hx]
  simp [Real.arctan_zero]

lemma atan2_pos_of_pos (y x : ℝ) (hy : 0 < y) : 0 < atan2 y x := by
  unfold atan2
  split_ifs with h1 h2 h3
  · rw [← Real.arctan_zero]
    exact Real.arctan_strictMono (div_pos hy h1)
  · have := Real.neg_pi_div_two_lt_arctan (y / x)
    have hpi := Real.pi_pos
    linarith
  · linarith
  · exact div_pos Real.pi_pos two_pos

lemma distOfA_zero : distOfA 0 = 0 := by
  unfold distOfA
  rw [Real.sqrt_zero, sub_zero, Real.sqrt_one, atan2_zero_of_pos 1 one_pos]
  ring

lemma distOfA_pos (a : ℝ) (ha : 0 < a) : 0 < distOfA a := by
  have := atan2_pos_of_pos (Real.sqrt a) (Real.sqrt (1 - a)) (Real.sqrt_pos.mpr ha)
  unfold distOfA
  positivity

lemma havA_self (lat lon : ℝ) : havA lat lon lat lon = 0 := by
  simp [havA, toRad]

lemma calculateDistance_self (lat lon : ℝ) : calculateDistance lat lon lat lon = 0 := by
  rw [calculateDistance, havA_self, distOfA_zero]

lemma sin_mul_self_pos (y : ℝ) (h0 : y ≠ 0) (h : |y| < π) : 0 < sin y * sin y := by
  have hne : sin y ≠ 0 := by
    intro h'
    rcases Real.sin_eq_zero_iff.mp h' with ⟨n, hn⟩
    have hn0 : n = 0 := by
      by_contra hnz
      have h1 : (1 : ℝ) ≤ |(n : ℝ)| := by
        have : (1 : ℤ) ≤ |n| := Int.one_le_abs hnz
        exact_mod_cast this
      have habs : |(n : ℝ) * π| = |(n : ℝ)| * π := by
        rw [abs_mul, abs_of_pos Real.pi_pos]
      rw [← hn, habs] at h
      nlinarith [Real.pi_pos]
    rw [hn0] at hn
    simp at hn
    exact h0 hn.symm
  exact mul_self_pos.mpr hne

lemma cos_toRad_pos (lat : ℝ) (h : |lat| < 90) : 0 < cos (toRad lat) := by
  rcases abs_lt.mp h with ⟨h1, h2⟩
  have hpi := Real.pi_pos
  refine Real.cos_pos_of_mem_Ioo ⟨?_, ?_⟩
  · show -(π / 2) < toRad lat
    unfold toRad
    nlinarith
  · show toRad lat < π / 2
    unfold toRad
    nlinarith

lemma toRad_half_eq_zero (d : ℝ) (h : toRad d / 2 = 0) : d = 0 := by
  have hpi := Real.pi_pos
  unfold toRad at h
  have ht : d * π = 0 := by linarith
  rcases mul_eq_zero.mp ht with h' | h'
  · exact h'
  · exact absurd h' (ne_of_gt hpi)

lemma abs_toRad_half_lt (d : ℝ) (h : |d| < 360) : |toRad d / 2| < π := by
  have hpi := Real.pi_pos
  unfold toRad
  have he : d * π / 180 / 2 = d * π / 360 := by ring
  rw [he, abs_div, abs_mul, abs_of_pos hpi, abs_of_pos (show (0 : ℝ) < 360 by norm_num)]
  rw [div_lt_iff₀ (show (0 : ℝ) < 360 by norm_num)]
  nlinarith [abs_nonneg d]

lemma havA_pos (lat1 lon1 lat2 lon2 : ℝ) (h1 : |lat1| < 90) (h2 : |lat2| < 90)
    (hlon : |lon2 - lon1| < 360) (hne : (lat1, lon1) ≠ (lat2, lon2)) :
    0 < havA lat1 lon1 lat2 lon2 := by
  have hc1 := cos_toRad_pos lat1 h1
  have hc2 := cos_toRad_pos lat2 h2
  unfold havA
  by_cases hlat : lat1 = lat2
  · have hlon2 : lon2 - lon1 ≠ 0 := by
      intro h'
      exact hne (by rw [hlat, show lon1 = lon2 by linarith])
    have hy0 : toRad (lon2 - lon1) / 2 ≠ 0 := fun h' => hlon2 (toRad_half_eq_zero _ h')
    have hy1 : |toRad (lon2 - lon1) / 2| < π := abs_toRad_half_lt _ hlon
    have hss := sin_mul_self_pos _ hy0 hy1
    nlinarith [mul_pos (mul_pos hc1 hc2) hss,
      mul_self_nonneg (sin (toRad (lat2 - lat1) / 2))]
  · have hd : lat2 - lat1 ≠ 0 := fun h' => hlat (by linarith)
    have hx0 : toRad (lat2 - lat1) / 2 ≠ 0 := fun h' => hd (toRad_half_eq_zero _ h')
    have hx1 : |toRad (lat2 - lat1) / 2| < π := by
      apply abs_toRad_half_lt
      rw [sub_eq_add_neg]
      calc |lat2 + -lat1| ≤ |lat2| + |-lat1| := abs_add _ _
      _ = |lat2| + |lat1| := by rw [abs_neg]
      _ < 360 := by linarith
    have hss := sin_mul_self_pos _ hx0 hx1
    nlinarith [mul_pos hc1 hc2,
      mul_self_nonneg (sin (toRad (lon2 - lon1) / 2))]

/-- C2: for every consecutive waypoint pair, the render preparation emits exactly
one segment identical to the input pair when the raw longitude delta is at most
180 in absolute value, and otherwise exactly two sub-segments terminating at the
antimeridian boundary (with the documented 180.1 overshoot), whose shared crossing
latitude is latA + (latB - latA) * (distanceToEdge / (360 - |lonB - lonA|)),
distanceToEdge being 180 - lonA when lonB - lonA < 0 and lonA + 180 otherwise;
for A = (170, 10), B = (-170, 20) the crossing latitude 15 is strictly between
10 and 20. -/
theorem wrapSegments_spec :
    (∀ src dst : ℝ × ℝ,
      (|dst.1 - src.1| ≤ 180 → wrapSegments src dst = [(src, dst)]) ∧
      (180 < |dst.1 - src.1| →
        wrapSegments src dst =
          [(src, ((if dst.1 - src.1 < 0 then (180.1 : ℝ) else -180.1),
              src.2 + (dst.2 - src.2) *
                ((if dst.1 - src.1 < 0 then 180 - src.1 else src.1 + 180) /
                  (360 - |dst.1 - src.1|)))),
            (((if dst.1 - src.1 < 0 then (-180.1 : ℝ) else 180.1),
              src.2 + (dst.2 - src.2) *
                ((if dst.1 - src.1 < 0 then 180 - src.1 else src.1 + 180) /
                  (360 - |dst.1 - src.1|))), dst)])) ∧
    (wrapSegments (170, 10) (-170, 20) =
        [(((170 : ℝ), (10 : ℝ)), ((180.1 : ℝ), (15 : ℝ))),
          (((-180.1 : ℝ), (15 : ℝ)), ((-170 : ℝ), (20 : ℝ)))] ∧
      (10 : ℝ) < 15 ∧ (15 : ℝ) < 20) := by
  refine ⟨fun src dst => ⟨fun h => ?_, fun h => ?_⟩, ?_, by norm_num, by norm_num⟩
  · simp only [wrapSegments]
    rw [if_neg (not_lt.mpr h)]
  · simp only [wrapSegments]
    rw [if_pos h]
  · simp only [wrapSegments]
    norm_num

/-- Witness for C2 at the documented no-split input A = (10, 0), B = (50, 0). -/
theorem wrapSegments_spec_witness :
    wrapSegments (10, 0) (50, 0) = [(((10 : ℝ), (0 : ℝ)), ((50 : ℝ), (0 : ℝ)))] :=
  (wrapSegments_spec.1 (10, 0) (50, 0)).1 (by norm_num)

/-- C8 counterexample: the haversine distance of the code is 0 at the two distinct
input pairs (lat 90, lon 0) and (lat 90, lon 10), because cos(90 deg) = 0 kills the
longitude term, so "distance(a, b) > 0 whenever a != b" fails on the code. -/
theorem calculateDistance_pole_zero :
    calculateDistance 90 0 90 10 = 0 ∧ ((90 : ℝ), (0 : ℝ)) ≠ ((90 : ℝ), (10 : ℝ)) := by
  constructor
  · have h90 : toRad 90 = π / 2 := by unfold toRad; ring
    have h0 : toRad (90 - 90) = 0 := by unfold toRad; ring
    have h : havA 90 0 90 10 = 0 := by
      unfold havA
      rw [h0, h90]
      simp [Real.cos_pi_div_two]
    rw [calculateDistance, h, distOfA_zero]
  · simp [Prod.ext_iff]

/-- C8 (amended): distance(a, a) = 0 always holds; distance(a, b) > 0 for distinct
input pairs holds provided both latitudes are strictly inside (-90, 90) and the
longitude difference is less than 360 in absolute value (at the poles, or at
longitudes differing by a full turn, the code returns 0 for distinct inputs). -/
theorem calculateDistance_identity_and_pos (lat1 lon1 lat2 lon2 : ℝ)
    (h1 : |lat1| < 90) (h2 : |lat2| < 90) (hlon : |lon2 - lon1| < 360)
    (hne : (lat1, lon1) ≠ (lat2, lon2)) :
    calculateDistance lat1 lon1 lat1 lon1 = 0 ∧ 0 < calculateDistance lat1 lon1 lat2 lon2 :=
  ⟨calculateDistance_self lat1 lon1,
    distOfA_pos _ (havA_pos lat1 lon1 lat2 lon2 h1 h2 hlon hne)⟩

/-- Witness for C8 (amended) at lat/lon (0, 0) versus (10, 0). -/
theorem calculateDistance_identity_and_pos_witness :
    calculateDistance 0 0 0 0 = 0 ∧ 0 < calculateDistance 0 0 10 0 :=
  calculateDistance_identity_and_pos 0 0 10 0 (by norm_num) (by norm_num) (by norm_num)
    (by simp [Prod.ext_iff])

/-!  Lemmas about the findNearestPort fold.  -/

lemma rotterdamPort_mem : rotterdamPort ∈ MAJOR_PORTS := by
  unfold MAJOR_PORTS rotterdamPort
  exact List.mem_cons_self _ _

lemma hamburgPort_mem : hamburgPort ∈ MAJOR_PORTS := by
  unfold MAJOR_PORTS hamburgPort
  exact List.mem_cons_of_mem _ (List.mem_cons_self _ _)

lemma nearFold_all_excluded (ex : List String) (c : ℝ × ℝ) :
    ∀ (l : List GlobalPort) (a : GlobalPort), (∀ p ∈ l, p.name ∈ ex) →
      List.foldl (nearStep ex c) (a, none) l = (a, none) := by
  intro l
  induction l with
  | nil => intro a _; rfl
  | cons p l ih =>
    intro a h
    rw [List.foldl_cons, show nearStep ex c (a, none) p = (a, none) from by
      simp [nearStep, h p (List.mem_cons_self p l)]]
    exact ih a fun q hq => h q (List.mem_cons_of_mem p hq)

lemma nearFold_some (ex : List String) (c : ℝ × ℝ) :
    ∀ (l : List GlobalPort) (a : GlobalPort) (m : ℝ),
      ∃ b m', List.foldl (nearStep ex c) (a, some m) l = (b, some m') ∧
        m' ≤ m ∧
        ((b = a ∧ m' = m) ∨ (b ∈ l ∧ b.name ∉ ex ∧ m' = portDist c.2 c.1 b)) ∧
        (∀ q ∈ l, q.name ∉ ex → m' ≤ portDist c.2 c.1 q) := by
  intro l
  induction l with
  | nil =>
    intro a m
    exact ⟨a, m, rfl, le_refl _, Or.inl ⟨rfl, rfl⟩, by simp⟩
  | cons p l ih =>
    intro a m
    rw [List.foldl_cons]
    by_cases hex : p.name ∈ ex
    · rw [show nearStep ex c (a, some m) p = (a, some m) from by simp [nearStep, hex]]
      obtain ⟨b, m', h1, h2, h3, h4⟩ := ih a m
      refine ⟨b, m', h1, h2, ?_, ?_⟩
      · rcases h3 with h | h
        · exact Or.inl h
        · exact Or.inr ⟨List.mem_cons_of_mem p h.1, h.2.1, h.2.2⟩
      · intro q hq hqex
        rcases List.mem_cons.mp hq with rfl | hq'
        · exact absurd hex hqex
        · exact h4 q hq' hqex
    · by_cases hlt : portDist c.2 c.1 p < m
      · rw [show nearStep ex c (a, some m) p = (p, some (portDist c.2 c.1 p)) from by
          simp [nearStep, hex, hlt]]
        obtain ⟨b, m', h1, h2, h3, h4⟩ := ih p (portDist c.2 c.1 p)
        refine ⟨b, m', h1, le_trans h2 hlt.le, ?_, ?_⟩
        · rcases h3 with ⟨rfl, he⟩ | h
          · exact Or.inr ⟨List.mem_cons_self b l, hex, he⟩
          · exact Or.inr ⟨List.mem_cons_of_mem p h.1, h.2.1, h.2.2⟩
        · intro q hq hqex
          rcases List.mem_cons.mp hq with rfl | hq'
          · exact h2
          · exact h4 q hq' hqex
      · rw [show nearStep ex c (a, some m) p = (a, some m) from by simp [nearStep, hex, hlt]]
        obtain ⟨b, m', h1, h2, h3, h4⟩ := ih a m
        refine ⟨b, m', h1, h2, ?_, ?_⟩
        · rcases h3 with h | h
          · exact Or.inl h
          · exact Or.inr ⟨List.mem_cons_of_mem p h.1, h.2.1, h.2.2⟩
        · intro q hq hqex
          rcases List.mem_cons.mp hq with rfl | hq'
          · exact le_trans h2 (not_lt.mp hlt)
          · exact h4 q hq' hqex

lemma nearFold_main (ex : List String) (c : ℝ × ℝ) :
    ∀ (l : List GlobalPort) (a : GlobalPort), (∃ p ∈ l, p.name ∉ ex) →
      ∃ b, (List.foldl (nearStep ex c) (a, none) l).1 = b ∧ b ∈ l ∧ b.name ∉ ex ∧
        (∀ q ∈ l, q.name ∉ ex → portDist c.2 c.1 b ≤ portDist c.2 c.1 q) := by
  intro l
  induction l with
  | nil =>
    intro a h
    simp at h
  | cons p l ih =>
    intro a hex
    by_cases hpex : p.name ∈ ex
    · rw [List.foldl_cons, show nearStep ex c (a, none) p = (a, none) from by
        simp [nearStep, hpex]]
      have hex' : ∃ q ∈ l, q.name ∉ ex := by
        rcases hex with ⟨q, hq, hqex⟩
        rcases List.mem_cons.mp hq with rfl | hq'
        · exact absurd hpex hqex
        · exact ⟨q, hq', hqex⟩
      obtain ⟨b, h1, h2, h3, h4⟩ := ih a hex'
      refine ⟨b, h1, List.mem_cons_of_mem p h2, h3, ?_⟩
      intro q hq hqex
      rcases List.mem_cons.mp hq with rfl | hq'
      · exact absurd hpex hqex
      · exact h4 q hq' hqex
    · rw [List.foldl_cons, show nearStep ex c (a, none) p = (p, some (portDist c.2 c.1 p))
        from by simp [nearStep, hpex]]
      obtain ⟨b, m', h1, h2, h3, h4⟩ := nearFold_some ex c l p (portDist c.2 c.1 p)
      have hdb : portDist c.2 c.1 b = m' := by
        rcases h3 with ⟨rfl, he⟩ | h
        · rw [he]
        · rw [h.2.2]
      refine ⟨b, by rw [h1], ?_, ?_, ?_⟩
      · rcases h3 with ⟨rfl, _⟩ | h
        · exact List.mem_cons_self b l
        · exact List.mem_cons_of_mem p h.1
      · rcases h3 with ⟨rfl, _⟩ | h
        · exact hpex
        · exact h.2.1
      · intro q hq hqex
        rcases List.mem_cons.mp hq with rfl | hq'
        · rw [hdb]; exact h2
        · rw [hdb]; exact h4 q hq' hqex

lemma findNearestPort_spec (c : ℝ × ℝ) (ex : List String)
    (hex : ∃ p ∈ MAJOR_PORTS, p.name ∉ ex) :
    findNearestPort c ex ∈ MAJOR_PORTS ∧ (findNearestPort c ex).name ∉ ex ∧
      ∀ q ∈ MAJOR_PORTS, q.name ∉ ex →
        portDist c.2 c.1 (findNearestPort c ex) ≤ portDist c.2 c.1 q := by
  obtain ⟨b, h1, h2, h3, h4⟩ := nearFold_main ex c MAJOR_PORTS MAJOR_PORTS.headI hex
  unfold findNearestPort
  rw [h1]
  exact ⟨h2, h3, h4⟩

lemma findNearestPort_all_excluded (c : ℝ × ℝ) (ex : List String)
    (h : ∀ p ∈ MAJOR_PORTS, p.name ∈ ex) : findNearestPort c ex = rotterdamPort := by
  unfold findNearestPort
  rw [nearFold_all_excluded ex c MAJOR_PORTS MAJOR_PORTS.headI h]
  rfl

/-- C4 counterexample: with every catalog name excluded (an exhausted pool), the
resolver does not fail; it silently returns Rotterdam (MAJOR_PORTS[0]) even though
"Rotterdam" is in the exclusion set. -/
theorem findNearestPort_exhausted_cex :
    findNearestPort ((0 : ℝ), (0 : ℝ)) allPortNames = rotterdamPort ∧
      rotterdamPort.name ∈ allPortNames := by
  constructor
  · exact findNearestPort_all_excluded _ _ fun _p hp => List.mem_map_of_mem GlobalPort.name hp
  · decide

/-- C4 (amended): when every catalog port is excluded, findNearestPort does not
fail or signal the exhaustion; it returns the first catalog port (Rotterdam)
whose name is itself excluded. -/
theorem findNearestPort_exhausted_returns_first (c : ℝ × ℝ) (ex : List String)
    (h : ∀ p ∈ MAJOR_PORTS, p.name ∈ ex) :
    findNearestPort c ex = rotterdamPort ∧ rotterdamPort.name ∈ ex :=
  ⟨findNearestPort_all_excluded c ex h, h rotterdamPort rotterdamPort_mem⟩

/-- Witness for C4 (amended): the full name catalog as the exclusion set. -/
theorem findNearestPort_exhausted_returns_first_witness :
    findNearestPort ((10 : ℝ), (20 : ℝ)) allPortNames = rotterdamPort ∧
      rotterdamPort.name ∈ allPortNames :=
  findNearestPort_exhausted_returns_first ((10 : ℝ), (20 : ℝ)) allPortNames
    fun _p hp => List.mem_map_of_mem GlobalPort.name hp

lemma exists_port_name_ne (n : String) : ∃ p ∈ MAJOR_PORTS, p.name ≠ n := by
  by_cases h : n = "Rotterdam"
  · refine ⟨hamburgPort, hamburgPort_mem, ?_⟩
    rw [h]
    decide
  · exact ⟨rotterdamPort, rotterdamPort_mem, fun h' => h h'.symm⟩

/-!  Lemmas about the findIntermediatePorts selection.  -/

lemma selFold_some (lat lng : ℝ) :
    ∀ (l : List GlobalPort) (a : Option GlobalPort) (m : ℝ),
      ∃ b m', List.foldl (selStep lat lng) (a, some m) l = (b, some m') ∧
        m' ≤ m ∧
        ((b = a ∧ m' = m) ∨ ∃ p ∈ l, b = some p ∧ m' = portDist lat lng p) ∧
        (∀ q ∈ l, m' ≤ portDist lat lng q) := by
  intro l
  induction l with
  | nil =>
    intro a m
    exact ⟨a, m, rfl, le_refl _, Or.inl ⟨rfl, rfl⟩, by simp⟩
  | cons p l ih =>
    intro a m
    rw [List.foldl_cons]
    by_cases hlt : portDist lat lng p < m
    · rw [show selStep lat lng (a, some m) p = (some p, some (portDist lat lng p)) from by
        simp [selStep, hlt]]
      obtain ⟨b, m', h1, h2, h3, h4⟩ := ih (some p) (portDist lat lng p)
      refine ⟨b, m', h1, le_trans h2 hlt.le, ?_, ?_⟩
      · rcases h3 with ⟨rfl, he⟩ | ⟨q, hq, hb, he⟩
        · exact Or.inr ⟨p, List.mem_cons_self p l, rfl, he⟩
        · exact Or.inr ⟨q, List.mem_cons_of_mem p hq, hb, he⟩
      · intro q hq
        rcases List.mem_cons.mp hq with rfl | hq'
        · exact h2
        · exact h4 q hq'
    · rw [show selStep lat lng (a, some m) p = (a, some m) from by simp [selStep, hlt]]
      obtain ⟨b, m', h1, h2, h3, h4⟩ := ih a m
      refine ⟨b, m', h1, h2, ?_, ?_⟩
      · rcases h3 with h | ⟨q, hq, hb, he⟩
        · exact Or.inl h
        · exact Or.inr ⟨q, List.mem_cons_of_mem p hq, hb, he⟩
      · intro q hq
        rcases List.mem_cons.mp hq with rfl | hq'
        · exact le_trans h2 (not_lt.mp hlt)
        · exact h4 q hq'

lemma selectBest_spec (lat lng : ℝ) (l : List GlobalPort) (hl : l ≠ []) :
    ∃ b, selectBest lat lng l = some b ∧ b ∈ l ∧
      ∀ q ∈ l, portDist lat lng b ≤ portDist lat lng q := by
  obtain ⟨p, l', rfl⟩ := List.exists_cons_of_ne_nil hl
  unfold selectBest
  rw [List.head?_cons, List.foldl_cons,
    show selStep lat lng (some p, none) p = (some p, some (portDist lat lng p)) from rfl]
  obtain ⟨b, m', h1, h2, h3, h4⟩ := selFold_some lat lng l' (some p) (portDist lat lng p)
  rw [h1]
  rcases h3 with ⟨rfl, he⟩ | ⟨q, hq, rfl, he⟩
  · refine ⟨p, rfl, List.mem_cons_self p l', ?_⟩
    intro q hq
    rcases List.mem_cons.mp hq with rfl | hq'
    · exact le_refl _
    · exact he ▸ h4 q hq'
  · refine ⟨q, rfl, List.mem_cons_of_mem p hq, ?_⟩
    intro r hr
    rcases List.mem_cons.mp hr with rfl | hr'
    · exact he ▸ h2
    · exact he ▸ h4 r hr'

lemma selectBest_eq_of_strict (lat lng : ℝ) (l : List GlobalPort) (b : GlobalPort)
    (hb : b ∈ l)
    (hstrict : ∀ q ∈ l, q ≠ b → portDist lat lng b < portDist lat lng q) :
    selectBest lat lng l = some b := by
  obtain ⟨b', h1, h2, h3⟩ := selectBest_spec lat lng l (List.ne_nil_of_mem hb)
  by_cases h : b' = b
  · rw [h1, h]
  · have hlt := hstrict b' h2 h
    have hle := h3 b hb
    linarith

lemma fipCandidates_mem (regions : Option (List String)) (used : Finset String)
    (p : GlobalPort) (hp : p ∈ fipCandidates regions used) :
    p ∈ MAJOR_PORTS ∧ p.name ∉ used := by
  have hbase : ∀ q ∈ MAJOR_PORTS.filter (fun r => r.name ∉ used),
      q ∈ MAJOR_PORTS ∧ q.name ∉ used := by
    intro q hq
    have := List.mem_filter.mp hq
    exact ⟨this.1, by simpa using this.2⟩
  unfold fipCandidates at hp
  cases regions with
  | none => exact hbase p hp
  | some regs =>
    simp only at hp
    split_ifs at hp with h
    · exact hbase p (List.mem_of_mem_filter hp)
    · exact hbase p hp

lemma fipCandidates_ne_nil (regions : Option (List String)) (used : Finset String)
    (h : ∃ p ∈ MAJOR_PORTS, p.name ∉ used) : fipCandidates regions used ≠ [] := by
  obtain ⟨p, hp, hpu⟩ := h
  have hbase : MAJOR_PORTS.filter (fun r => r.name ∉ used) ≠ [] :=
    List.ne_nil_of_mem (List.mem_filter.mpr ⟨hp, by simpa using hpu⟩)
  unfold fipCandidates
  cases regions with
  | none => exact hbase
  | some regs =>
    simp only
    split_ifs with hlen
    · intro hnil
      rw [hnil] at hlen
      exact hlen rfl
    · exact hbase

lemma portNames_nodup : (MAJOR_PORTS.map GlobalPort.name).Nodup := by decide

lemma portNames_card : (MAJOR_PORTS.map GlobalPort.name).toFinset.card = 39 := by
  rw [List.toFinset_card_of_nodup portNames_nodup]
  rfl

lemma exists_unused (used : Finset String) (h : used.card < 39) :
    ∃ p ∈ MAJOR_PORTS, p.name ∉ used := by
  by_contra h'
  push_neg at h'
  have hsub : (MAJOR_PORTS.map GlobalPort.name).toFinset ⊆ used := by
    intro x hx
    rw [List.mem_toFinset] at hx
    obtain ⟨p, hp, rfl⟩ := List.mem_map.mp hx
    exact h' p hp
  have := Finset.card_le_card hsub
  rw [portNames_card] at this
  omega

lemma fipGo_spec (origin destination : ℝ × ℝ) (count : ℕ) (regions : Option (List String)) :
    ∀ (slots : List ℕ) (used : Finset String), used.card + slots.length ≤ 39 →
      ∃ l, fipGo origin destination count regions slots used = some l ∧
        l.length = slots.length ∧
        (l.map GlobalPort.name).Nodup ∧
        (∀ p ∈ l, p ∈ MAJOR_PORTS ∧ p.name ∉ used) := by
  intro slots
  induction slots with
  | nil =>
    intro used _
    exact ⟨[], rfl, rfl, List.nodup_nil, by simp⟩
  | cons i rest ih =>
    intro used hcard
    rw [List.length_cons] at hcard
    have hlt : used.card < 39 := by omega
    have hne := fipCandidates_ne_nil regions used (exists_unused used hlt)
    obtain ⟨best, hbest, hbmem, hmin⟩ :=
      selectBest_spec (origin.2 + (destination.2 - origin.2) * ((i : ℝ) / ((count : ℝ) + 1)))
        (origin.1 + (destination.1 - origin.1) * ((i : ℝ) / ((count : ℝ) + 1)))
        (fipCandidates regions used) hne
    obtain ⟨hbports, hbused⟩ := fipCandidates_mem regions used best hbmem
    have hcard' : (insert best.name used).card + rest.length ≤ 39 := by
      have := Finset.card_insert_le best.name used
      omega
    obtain ⟨l', hl', hlen, hnodup, hprop⟩ := ih (insert best.name used) hcard'
    refine ⟨best :: l', ?_, by simp [hlen], ?_, ?_⟩
    · simp only [fipGo]
      rw [hbest]
      dsimp only
      rw [hl']
      rfl
    · rw [List.map_cons, List.nodup_cons]
      refine ⟨?_, hnodup⟩
      intro hmem
      obtain ⟨q, hq, hqe⟩ := List.mem_map.mp hmem
      have := (hprop q hq).2
      rw [hqe] at this
      exact this (Finset.mem_insert_self _ _)
    · intro p hp
      rcases List.mem_cons.mp hp with rfl | hp'
      · exact ⟨hbports, hbused⟩
      · have := hprop p hp'
        exact ⟨this.1, fun hmem => this.2 (Finset.mem_insert_of_mem hmem)⟩

lemma fipGo_length (origin destination : ℝ × ℝ) (count : ℕ)
    (regions : Option (List String)) :
    ∀ (slots : List ℕ) (used : Finset String) (l : List GlobalPort),
      fipGo origin destination count regions slots used = some l →
      l.length = slots.length := by
  intro slots
  induction slots with
  | nil =>
    intro used l h
    simp only [fipGo] at h
    rw [← Option.some_inj.mp h]
    rfl
  | cons i rest ih =>
    intro used l h
    simp only [fipGo] at h
    cases hsel : selectBest (origin.2 + (destination.2 - origin.2) * ((i : ℝ) / ((count : ℝ) + 1)))
        (origin.1 + (destination.1 - origin.1) * ((i : ℝ) / ((count : ℝ) + 1)))
        (fipCandidates regions used) with
    | none => rw [hsel] at h; exact absurd h (by simp)
    | some best =>
      rw [hsel] at h
      obtain ⟨l', hl', rfl⟩ := Option.map_eq_some'.mp h
      rw [List.length_cons, List.length_cons, ih (insert best.name used) l' hl']

lemma findIntermediatePorts_spec (origin destination : ℝ × ℝ) (count : ℕ)
    (regions : Option (List String)) (avoid : List GlobalPort)
    (h : avoid.length + count ≤ 39) :
    ∃ l, findIntermediatePorts origin destination count regions avoid = some l ∧
      l.length = count ∧ (l.map GlobalPort.name).Nodup ∧
      (∀ p ∈ l, p ∈ MAJOR_PORTS ∧ p.name ∉ (avoid.map GlobalPort.name).toFinset) := by
  unfold findIntermediatePorts
  have hcard : ((avoid.map GlobalPort.name).toFinset).card + (List.range' 1 count).length ≤ 39 := by
    have h1 := List.toFinset_card_le (avoid.map GlobalPort.name)
    rw [List.length_map] at h1
    rw [List.length_range']
    omega
  obtain ⟨l, h1, h2, h3, h4⟩ := fipGo_spec origin destination count regions
    (List.range' 1 count) _ hcard
  rw [List.length_range'] at h2
  exact ⟨l, h1, h2, h3, h4⟩

/-- C6 counterexample: with the whole catalog in the avoid set and one slot
requested, the selection does not return a shorter list; it dereferences
undefined (modelled: none), i.e. the call throws. -/
theorem findIntermediatePorts_exhausted_cex :
    findIntermediatePorts ((0 : ℝ), (0 : ℝ)) ((0 : ℝ), (0 : ℝ)) 1 none MAJOR_PORTS = none := by
  unfold findIntermediatePorts
  rw [show List.range' 1 1 = [1] from rfl]
  simp only [fipGo]
  have hcand : fipCandidates none (MAJOR_PORTS.map GlobalPort.name).toFinset = [] := by
    unfold fipCandidates
    simp only
    rw [List.filter_eq_nil_iff]
    intro p hp
    simp only [decide_not, Bool.not_eq_true', decide_eq_false_iff_not, not_not,
      List.mem_toFinset]
    exact List.mem_map_of_mem GlobalPort.name hp
  rw [hcand]
  rfl

/-- C6 (amended): findIntermediatePorts never returns a shorter-than-requested
list; whenever it returns at all, the returned list has exactly `count` entries,
and when the pool is exhausted it throws (none) instead of degrading. -/
theorem findIntermediatePorts_length (origin destination : ℝ × ℝ) (count : ℕ)
    (regions : Option (List String)) (avoid : List GlobalPort) (l : List GlobalPort)
    (h : findIntermediatePorts origin destination count regions avoid = some l) :
    l.length = count := by
  unfold findIntermediatePorts at h
  have := fipGo_length origin destination count regions (List.range' 1 count) _ l h
  rwa [List.length_range'] at this

/-- Witness for C6 (amended): with 38 of the 39 ports avoided and one slot
requested, the call succeeds and returns exactly one port. -/
theorem findIntermediatePorts_length_witness :
    ∃ l, findIntermediatePorts ((0 : ℝ), (0 : ℝ)) ((0 : ℝ), (0 : ℝ)) 1 none
        avoidAllButFirst = some l ∧ l.length = 1 := by
  obtain ⟨l, h1, _, _, _⟩ := findIntermediatePorts_spec ((0 : ℝ), (0 : ℝ)) ((0 : ℝ), (0 : ℝ))
    1 none avoidAllButFirst (by decide)
  exact ⟨l, h1, findIntermediatePorts_length ((0 : ℝ), (0 : ℝ)) ((0 : ℝ), (0 : ℝ))
    1 none avoidAllButFirst l h1⟩

lemma dynRoute_waypointNames (idS nameS risk colorS : String) (sw speed : ℝ) (descr : String)
    (oP dP : GlobalPort) (inters : List GlobalPort) :
    (dynRoute idS nameS risk colorS sw speed descr oP dP inters).waypointNames =
      oP.name :: (inters.map GlobalPort.name ++ [dP.name]) := rfl

lemma intermediateNames_dynRoute (idS nameS risk colorS : String) (sw speed : ℝ)
    (descr : String) (oP dP : GlobalPort) (inters : List GlobalPort) :
    intermediateNames (dynRoute idS nameS risk colorS sw speed descr oP dP inters) =
      inters.map GlobalPort.name := by
  unfold intermediateNames
  rw [dynRoute_waypointNames]
  simp

lemma calculateDynamicRoutes_spec (oP dP : GlobalPort) :
    ∃ safe alt expr,
      findIntermediatePorts oP.coordinates dP.coordinates 3
          (some ["Africa", "Middle East", "Asia"]) [] = some safe ∧
      findIntermediatePorts oP.coordinates dP.coordinates 2
          (some ["Europe", "Asia"]) safe = some alt ∧
      findIntermediatePorts oP.coordinates dP.coordinates 1 none (safe ++ alt) = some expr ∧
      calculateDynamicRoutes oP dP = some
        [dynRoute "dyn-safe-1" "Standard Corridor" "low" "#5a9a7a" 2 35
            "Calculated secure route via major hubs" oP dP safe,
          dynRoute "dyn-safe-2" "Alternative Corridor" "low" "#6ba889" 2 35
            "Secondary secure routing option" oP dP alt,
          dynRoute "dyn-express" "Express Route" "medium" "#e8a547" 2.5 38
            "Direct routing with moderate risk profile" oP dP expr] ∧
      (safe.map GlobalPort.name).Nodup ∧ (alt.map GlobalPort.name).Nodup ∧
      (expr.map GlobalPort.name).Nodup ∧
      (∀ p ∈ alt, p.name ∉ safe.map GlobalPort.name) ∧
      (∀ p ∈ expr, p.name ∉ safe.map GlobalPort.name ∧ p.name ∉ alt.map GlobalPort.name) := by
  obtain ⟨safe, hs, hsl, hsn, _⟩ := findIntermediatePorts_spec oP.coordinates dP.coordinates 3
    (some ["Africa", "Middle East", "Asia"]) [] (by simp)
  obtain ⟨alt, ha, hal, han, hap⟩ := findIntermediatePorts_spec oP.coordinates dP.coordinates 2
    (some ["Europe", "Asia"]) safe (by rw [hsl]; norm_num)
  obtain ⟨express, he, hel, hen, hep⟩ := findIntermediatePorts_spec oP.coordinates
    dP.coordinates 1 none (safe ++ alt)
    (by rw [List.length_append, hsl, hal]; norm_num)
  refine ⟨safe, alt, express, hs, ha, he, ?_, hsn, han, hen, ?_, ?_⟩
  · unfold calculateDynamicRoutes
    rw [hs]
    dsimp only
    rw [ha]
    dsimp only
    rw [he]
  · intro p hp
    have h := (hap p hp).2
    intro hmem
    exact h (List.mem_toFinset.mpr hmem)
  · intro p hp
    have h := (hep p hp).2
    constructor
    · intro hmem
      refine h (List.mem_toFinset.mpr ?_)
      rw [List.map_append]
      exact List.mem_append_left _ hmem
    · intro hmem
      refine h (List.mem_toFinset.mpr ?_)
      rw [List.map_append]
      exact List.mem_append_right _ hmem

/-- C7: in Mode B the intermediate port names within each synthesized route are
pairwise distinct, the Standard and Alternative corridors share no intermediate,
and the Express intermediate belongs to neither. -/
theorem calculateDynamicRoutes_disjoint (originPort destPort : GlobalPort) :
    modeBDisjoint (calculateDynamicRoutes originPort destPort) := by
  obtain ⟨safe, alt, express, _, _, _, heq, hsn, han, hen, hdAlt, hdExpr⟩ :=
    calculateDynamicRoutes_spec originPort destPort
  refine ⟨_, _, _, heq, ?_⟩
  simp only [intermediateNames_dynRoute]
  refine ⟨hsn, han, hen, ?_, ?_⟩
  · intro n hn
    obtain ⟨p, hp, rfl⟩ := List.mem_map.mp hn
    exact hdAlt p hp
  · intro n hn
    obtain ⟨p, hp, rfl⟩ := List.mem_map.mp hn
    exact hdExpr p hp

/-- C1: calculateRoutes always succeeds, returning exactly 4 routes when the
resolved origin/destination port names are Shanghai and Hamburg in either order,
and exactly 3 routes for every other resolved pair. -/
theorem calculateRoutes_count (rd : RouteData) (origin destination : ℝ × ℝ) :
    ∃ rs, calculateRoutes rd origin destination = some rs ∧
      rs.length = if isShanghaiHamburg (findNearestPort origin)
        (findNearestPort destination [(findNearestPort origin).name]) then 4 else 3 := by
  unfold calculateRoutes
  by_cases h : isShanghaiHamburg (findNearestPort origin)
      (findNearestPort destination [(findNearestPort origin).name])
  · rw [if_pos h, if_pos h]
    exact ⟨_, rfl, rfl⟩
  · rw [if_neg h, if_neg h]
    obtain ⟨safe, alt, express, _, _, _, heq, _⟩ := calculateDynamicRoutes_spec
      (findNearestPort origin) (findNearestPort destination [(findNearestPort origin).name])
    exact ⟨_, heq, rfl⟩

/-- C9: calculateRoutes resolves the destination with the origin's resolved name
excluded, and the resolver never returns an excluded name while a candidate
remains, so the two resolved ports always carry different names, even for
identical input coordinates. -/
theorem calculateRoutes_endpoints_distinct (origin destination : ℝ × ℝ) :
    (findNearestPort destination [(findNearestPort origin).name]).name ≠
      (findNearestPort origin).name := by
  obtain ⟨p, hp, hpn⟩ := exists_port_name_ne (findNearestPort origin).name
  have hex : ∃ q ∈ MAJOR_PORTS, q.name ∉ [(findNearestPort origin).name] :=
    ⟨p, hp, by simpa using hpn⟩
  have h := (findNearestPort_spec destination [(findNearestPort origin).name] hex).2.1
  simpa using h

/-!  Resolution of exact port coordinates to their own catalog entry.  -/

lemma portDist_pos (lat lng : ℝ) (p : GlobalPort) (h1 : |lat| < 90)
    (h2 : |p.coordinates.2| < 90) (hlat : lat ≠ p.coordinates.2)
    (hlon : |p.coordinates.1 - lng| < 360) : 0 < portDist lat lng p := by
  unfold portDist calculateDistance
  apply distOfA_pos
  apply havA_pos lat lng p.coordinates.2 p.coordinates.1 h1 h2 hlon
  intro hpair
  exact hlat (congrArg Prod.fst hpair)

lemma portDist_self (p : GlobalPort) : portDist p.coordinates.2 p.coordinates.1 p = 0 :=
  calculateDistance_self p.coordinates.2 p.coordinates.1

lemma findNearestPort_exact (target : GlobalPort) (ex : List String)
    (hmem : target ∈ MAJOR_PORTS) (hex : target.name ∉ ex)
    (hpos : ∀ q ∈ MAJOR_PORTS, q ≠ target →
      0 < portDist target.coordinates.2 target.coordinates.1 q) :
    findNearestPort target.coordinates ex = target := by
  obtain ⟨h1, h2, h3⟩ := findNearestPort_spec target.coordinates ex ⟨target, hmem, hex⟩
  by_contra hne
  have hp := hpos _ h1 hne
  have hle := h3 target hmem hex
  rw [portDist_self] at hle
  linarith

lemma shanghaiPort_mem : shanghaiPort ∈ MAJOR_PORTS := by
  unfold MAJOR_PORTS shanghaiPort
  repeat
    first
    | exact List.mem_cons_self _ _
    | apply List.mem_cons_of_mem

lemma singaporePort_mem : singaporePort ∈ MAJOR_PORTS := by
  unfold MAJOR_PORTS singaporePort
  repeat
    first
    | exact List.mem_cons_self _ _
    | apply List.mem_cons_of_mem

lemma malaccaPort_mem : malaccaPort ∈ MAJOR_PORTS := by
  unfold MAJOR_PORTS malaccaPort
  repeat
    first
    | exact List.mem_cons_self _ _
    | apply List.mem_cons_of_mem

lemma pos_shanghai : ∀ q ∈ MAJOR_PORTS, q ≠ shanghaiPort →
    0 < portDist shanghaiPort.coordinates.2 shanghaiPort.coordinates.1 q := by
  intro q hq hne
  fin_cases hq <;>
    first
    | exact absurd rfl hne
    | (apply portDist_pos <;> norm_num [shanghaiPort, abs_lt])

lemma pos_hamburg : ∀ q ∈ MAJOR_PORTS, q ≠ hamburgPort →
    0 < portDist hamburgPort.coordinates.2 hamburgPort.coordinates.1 q := by
  intro q hq hne
  fin_cases hq <;>
    first
    | exact absurd rfl hne
    | (apply portDist_pos <;> norm_num [hamburgPort, abs_lt])

lemma pos_singapore : ∀ q ∈ MAJOR_PORTS, q ≠ singaporePort →
    0 < portDist singaporePort.coordinates.2 singaporePort.coordinates.1 q := by
  intro q hq hne
  fin_cases hq <;>
    first
    | exact absurd rfl hne
    | (apply portDist_pos <;> norm_num [singaporePort, abs_lt])

lemma pos_malacca : ∀ q ∈ MAJOR_PORTS, q ≠ malaccaPort →
    0 < portDist malaccaPort.coordinates.2 malaccaPort.coordinates.1 q := by
  intro q hq hne
  fin_cases hq <;>
    first
    | exact absurd rfl hne
    | (apply portDist_pos <;> norm_num [malaccaPort, abs_lt])

lemma resolve_shanghai : findNearestPort shanghaiPort.coordinates [] = shanghaiPort :=
  findNearestPort_exact shanghaiPort [] shanghaiPort_mem (by simp) pos_shanghai

lemma resolve_hamburg : findNearestPort hamburgPort.coordinates ["Shanghai"] = hamburgPort :=
  findNearestPort_exact hamburgPort ["Shanghai"] hamburgPort_mem (by decide) pos_hamburg

lemma resolve_singapore : findNearestPort singaporePort.coordinates [] = singaporePort :=
  findNearestPort_exact singaporePort [] singaporePort_mem (by simp) pos_singapore

lemma resolve_malacca : findNearestPort malaccaPort.coordinates ["Singapore"] = malaccaPort :=
  findNearestPort_exact malaccaPort ["Singapore"] malaccaPort_mem (by decide) pos_malacca

lemma calculateRoutes_sh_hh (rd : RouteData) :
    calculateRoutes rd shanghaiPort.coordinates hamburgPort.coordinates =
      some (getDetailedShanghaiHamburgRoutes rd) := by
  unfold calculateRoutes
  rw [resolve_shanghai]
  dsimp only
  rw [show shanghaiPort.name = "Shanghai" from rfl, resolve_hamburg]
  rw [if_pos (show isShanghaiHamburg shanghaiPort hamburgPort from Or.inl ⟨rfl, rfl⟩)]

/-- C3: every route returned by calculateRoutes carries a distance equal to the
sum of the haversine leg distances of its own waypoints, rounded once at the end
(Math.round applied to the unrounded sum). -/
theorem route_distance_consistent (rd : RouteData) (origin destination : ℝ × ℝ)
    (rs : List Route) (r : Route) (h : calculateRoutes rd origin destination = some rs)
    (hr : r ∈ rs) : r.distance = round (pathSum r.waypoints) := by
  unfold calculateRoutes at h
  by_cases hsh : isShanghaiHamburg (findNearestPort origin)
      (findNearestPort destination [(findNearestPort origin).name])
  · rw [if_pos hsh] at h
    rw [← Option.some_inj.mp h] at hr
    simp only [getDetailedShanghaiHamburgRoutes] at hr
    rcases List.mem_cons.mp hr with rfl | hr
    · rfl
    rcases List.mem_cons.mp hr with rfl | hr
    · rfl
    rcases List.mem_cons.mp hr with rfl | hr
    · rfl
    rcases List.mem_cons.mp hr with rfl | hr
    · rfl
    · exact absurd hr (List.not_mem_nil r)
  · rw [if_neg hsh] at h
    obtain ⟨safe, alt, express, _, _, _, heq, _⟩ := calculateDynamicRoutes_spec
      (findNearestPort origin) (findNearestPort destination [(findNearestPort origin).name])
    rw [heq] at h
    rw [← Option.some_inj.mp h] at hr
    rcases List.mem_cons.mp hr with rfl | hr
    · rfl
    rcases List.mem_cons.mp hr with rfl | hr
    · rfl
    rcases List.mem_cons.mp hr with rfl | hr
    · rfl
    · exact absurd hr (List.not_mem_nil r)

/-- Witness for C3 at the Shanghai to Hamburg call on a concrete RouteData. -/
theorem route_distance_consistent_witness :
    (getDetailedShanghaiHamburgRoutes rdWitness).headI.distance =
      round (pathSum (getDetailedShanghaiHamburgRoutes rdWitness).headI.waypoints) :=
  route_distance_consistent rdWitness shanghaiPort.coordinates hamburgPort.coordinates
    (getDetailedShanghaiHamburgRoutes rdWitness) _ (calculateRoutes_sh_hh rdWitness)
    (List.mem_cons_self _ _)

/-- C5: every route returned by calculateRoutes has as many waypoints as waypoint
names, and at least 2 of each.  For the curated branch this relies on the
spec-modelled lengths of the four routeData.ts paths (5, 4, 3 and 4 waypoints,
matching their waypointNames lists). -/
theorem route_waypoint_parity (rd : RouteData)
    (hc : rd.PATH_CAPE_OF_GOOD_HOPE.length = 5) (hz : rd.PATH_SUEZ_CANAL.length = 4)
    (hq : rd.PATH_PANAMA.length = 3) (hn : rd.PATH_ARCTIC_NSR.length = 4)
    (origin destination : ℝ × ℝ) (rs : List Route) (r : Route)
    (h : calculateRoutes rd origin destination = some rs) (hr : r ∈ rs) :
    r.waypoints.length = r.waypointNames.length ∧ 2 ≤ r.waypointNames.length := by
  unfold calculateRoutes at h
  by_cases hsh : isShanghaiHamburg (findNearestPort origin)
      (findNearestPort destination [(findNearestPort origin).name])
  · rw [if_pos hsh] at h
    rw [← Option.some_inj.mp h] at hr
    simp only [getDetailedShanghaiHamburgRoutes] at hr
    rcases List.mem_cons.mp hr with rfl | hr
    · exact ⟨hc, (by norm_num : (2 : ℕ) ≤ 5)⟩
    rcases List.mem_cons.mp hr with rfl | hr
    · exact ⟨hz, (by norm_num : (2 : ℕ) ≤ 4)⟩
    rcases List.mem_cons.mp hr with rfl | hr
    · exact ⟨hq, (by norm_num : (2 : ℕ) ≤ 3)⟩
    rcases List.mem_cons.mp hr with rfl | hr
    · exact ⟨hn, (by norm_num : (2 : ℕ) ≤ 4)⟩
    · exact absurd hr (List.not_mem_nil r)
  · rw [if_neg hsh] at h
    obtain ⟨safe, alt, express, _, _, _, heq, _⟩ := calculateDynamicRoutes_spec
      (findNearestPort origin) (findNearestPort destination [(findNearestPort origin).name])
    rw [heq] at h
    rw [← Option.some_inj.mp h] at hr
    have hgen : ∀ (idS nameS risk colorS : String) (sw speed : ℝ) (descr : String)
        (oP dP : GlobalPort) (inters : List GlobalPort),
        (dynRoute idS nameS risk colorS sw speed descr oP dP inters).waypoints.length =
            (dynRoute idS nameS risk colorS sw speed descr oP dP inters).waypointNames.length ∧
          2 ≤ (dynRoute idS nameS risk colorS sw speed descr oP dP inters).waypointNames.length := by
      intro idS nameS risk colorS sw speed descr oP dP inters
      constructor
      · simp [dynRoute]
      · simp [dynRoute]
    rcases List.mem_cons.mp hr with rfl | hr
    · exact hgen _ _ _ _ _ _ _ _ _ _
    rcases List.mem_cons.mp hr with rfl | hr
    · exact hgen _ _ _ _ _ _ _ _ _ _
    rcases List.mem_cons.mp hr with rfl | hr
    · exact hgen _ _ _ _ _ _ _ _ _ _
    · exact absurd hr (List.not_mem_nil r)

/-- Witness for C5 at the Shanghai to Hamburg call on a concrete RouteData whose
paths have the expected lengths. -/
theorem route_waypoint_parity_witness :
    (getDetailedShanghaiHamburgRoutes rdWitness).headI.waypoints.length =
        (getDetailedShanghaiHamburgRoutes rdWitness).headI.waypointNames.length ∧
      2 ≤ (getDetailedShanghaiHamburgRoutes rdWitness).headI.waypointNames.length :=
  route_waypoint_parity rdWitness rfl rfl rfl rfl shanghaiPort.coordinates
    hamburgPort.coordinates (getDetailedShanghaiHamburgRoutes rdWitness) _
    (calculateRoutes_sh_hh rdWitness) (List.mem_cons_self _ _)

/-!  Numeric bounds used to decide the nearest candidate of a concrete slot.  -/

lemma sin_mul_self_le_sq (z : ℝ) : sin z * sin z ≤ z * z := by
  have h1 := Real.neg_one_le_sin z
  have h2 := Real.sin_le_one z
  rcases le_or_lt 1 |z| with h | h
  · have hz : 1 ≤ z * z := by nlinarith [abs_nonneg z, sq_abs z]
    nlinarith
  · rcases lt_trichotomy z 0 with hz | rfl | hz
    · have hz1 : -z < 1 := by
        rw [abs_of_neg hz] at h
        exact h
      have hpos : 0 < sin (-z) := Real.sin_pos_of_pos_of_lt_pi (by linarith)
        (by nlinarith [Real.pi_gt_three])
      have hlt : sin (-z) < -z := Real.sin_lt (by linarith)
      have hodd : sin z = -sin (-z) := by rw [Real.sin_neg, neg_neg]
      nlinarith [hpos, hlt, hodd]
    · simp
    · have hz1 : z < 1 := by rwa [abs_of_pos hz] at h
      have hpos : 0 < sin z := Real.sin_pos_of_pos_of_lt_pi hz
        (by nlinarith [Real.pi_gt_three])
      have hlt : sin z < z := Real.sin_lt hz
      nlinarith

lemma sin_mul_self_ge_sq (t s : ℝ) (h0 : 0 ≤ s) (h : s ≤ |sin t|) :
    s * s ≤ sin t * sin t := by
  nlinarith [abs_nonneg (sin t), sq_abs (sin t)]

lemma abs_sin_eq_sin_abs (t : ℝ) (h : |t| ≤ π) : |sin t| = sin |t| := by
  rcases le_or_lt 0 t with ht | ht
  · rw [abs_of_nonneg ht] at h ⊢
    rw [abs_of_nonneg (Real.sin_nonneg_of_nonneg_of_le_pi ht h)]
  · rw [abs_of_neg ht] at h ⊢
    have h1 : |sin t| = |sin (-t)| := by rw [Real.sin_neg, abs_neg]
    rw [h1, abs_of_nonneg (Real.sin_nonneg_of_nonneg_of_le_pi (by linarith) h)]

lemma cos_ge_of_abs_le (t b : ℝ) (hb : |t| ≤ b) (hb1 : b ≤ 1) :
    1 - b ^ 2 / 2 - 5 * b ^ 4 / 96 ≤ cos t := by
  have h := abs_le.mp (Real.cos_bound (le_trans hb hb1))
  have ht4 : |t| ^ 4 ≤ b ^ 4 := pow_le_pow_left₀ (abs_nonneg t) hb 4
  have ht2 : t ^ 2 ≤ b ^ 2 := by nlinarith [sq_abs t, abs_nonneg t]
  nlinarith [h.1, h.2]

lemma sin_ge_of_bounds (t a b : ℝ) (ha : a ≤ t) (hb : t ≤ b) (h0 : 0 ≤ a) (hb1 : b ≤ 1) :
    a - b ^ 3 / 6 - 5 * b ^ 4 / 96 ≤ sin t := by
  have ht0 : 0 ≤ t := le_trans h0 ha
  have habs : |t| ≤ 1 := by
    rw [abs_of_nonneg ht0]
    exact le_trans hb hb1
  have h := abs_le.mp (Real.sin_bound habs)
  have ht3 : t ^ 3 ≤ b ^ 3 := pow_le_pow_left₀ ht0 hb 3
  have ht4 : |t| ^ 4 ≤ b ^ 4 := by
    rw [abs_of_nonneg ht0]
    exact pow_le_pow_left₀ ht0 hb 4
  nlinarith [h.1, h.2]

lemma havA_le_one (lat1 lon1 lat2 lon2 : ℝ) : havA lat1 lon1 lat2 lon2 ≤ 1 := by
  unfold havA
  set A := toRad lat1 with hA
  set B := toRad lat2 with hB
  set x := toRad (lat2 - lat1) / 2 with hx
  set y := toRad (lon2 - lon1) / 2 with hy
  have hAB : A - B = -(2 * x) := by
    rw [hA, hB, hx]
    unfold toRad
    ring
  have h1 : cos A * cos B = (cos (A - B) + cos (A + B)) / 2 := by
    rw [Real.cos_sub, Real.cos_add]
    ring
  have h2 : cos (A - B) = 1 - 2 * (sin x * sin x) := by
    rw [hAB, Real.cos_neg, Real.cos_two_mul]
    nlinarith [Real.sin_sq_add_cos_sq x]
  have h3 : cos (A + B) ≤ 1 := Real.cos_le_one _
  have h4 : sin y * sin y ≤ 1 := by
    nlinarith [Real.neg_one_le_sin y, Real.sin_le_one y]
  have h5 : 0 ≤ sin x * sin x := mul_self_nonneg _
  have h6 : 0 ≤ sin y * sin y := mul_self_nonneg _
  have h7 : cos A * cos B ≤ 1 - sin x * sin x := by nlinarith [h1, h2, h3]
  have h8 : cos A * cos B * (sin y * sin y) ≤ (1 - sin x * sin x) * (sin y * sin y) :=
    mul_le_mul_of_nonneg_right h7 h6
  have h9 : sin x * sin x ≤ 1 := by
    nlinarith [Real.neg_one_le_sin x, Real.sin_le_one x]
  nlinarith [h8, h9, h4, h5]

lemma atan2_of_pos (y x : ℝ) (hx : 0 < x) : atan2 y x = arctan (y / x) := by
  unfold atan2
  rw [if_pos hx]

lemma atan2_one_zero : atan2 1 0 = π / 2 := by
  unfold atan2
  rw [if_neg (lt_irrefl 0), if_neg (lt_irrefl 0), if_pos one_pos]

lemma distOfA_lt_distOfA (a b : ℝ) (h0 : 0 ≤ a) (hab : a < b) (hb : b ≤ 1) :
    distOfA a < distOfA b := by
  unfold distOfA
  have hmain : atan2 (Real.sqrt a) (Real.sqrt (1 - a)) <
      atan2 (Real.sqrt b) (Real.sqrt (1 - b)) := by
    rcases eq_or_lt_of_le hb with rfl | hb1
    · rw [sub_self, Real.sqrt_zero, Real.sqrt_one, atan2_one_zero]
      have hxa : 0 < Real.sqrt (1 - a) := Real.sqrt_pos.mpr (by linarith)
      rw [atan2_of_pos _ _ hxa]
      exact Real.arctan_lt_pi_div_two _
    · have hxa : 0 < Real.sqrt (1 - a) := Real.sqrt_pos.mpr (by linarith)
      have hxb : 0 < Real.sqrt (1 - b) := Real.sqrt_pos.mpr (by linarith)
      rw [atan2_of_pos _ _ hxa, atan2_of_pos _ _ hxb]
      apply Real.arctan_strictMono
      rw [div_lt_div_iff₀ hxa hxb]
      calc Real.sqrt a * Real.sqrt (1 - b)
          < Real.sqrt b * Real.sqrt (1 - b) := by
            exact mul_lt_mul_of_pos_right (Real.sqrt_lt_sqrt h0 hab) hxb
        _ ≤ Real.sqrt b * Real.sqrt (1 - a) :=
            mul_le_mul_of_nonneg_left (Real.sqrt_le_sqrt (by linarith)) (Real.sqrt_nonneg b)
  nlinarith [hmain]

lemma portDist_lt_portDist (lat lng : ℝ) (p q : GlobalPort)
    (h0 : 0 ≤ havA lat lng p.coordinates.2 p.coordinates.1)
    (hlt : havA lat lng p.coordinates.2 p.coordinates.1 <
      havA lat lng q.coordinates.2 q.coordinates.1) :
    portDist lat lng p < portDist lat lng q := by
  unfold portDist calculateDistance
  exact distOfA_lt_distOfA _ _ h0 hlt (havA_le_one _ _ _ _)

lemma havA_sg_upper : havA 1.5925 102.975 1.29 103.85 ≤ 0.000066 := by
  unfold havA
  have hπu : π < 3.141593 := Real.pi_lt_d6
  have hπ0 := Real.pi_pos
  have hx := sin_mul_self_le_sq (toRad (1.29 - 1.5925) / 2)
  have hy := sin_mul_self_le_sq (toRad (103.85 - 102.975) / 2)
  have hxz : toRad (1.29 - 1.5925) / 2 * (toRad (1.29 - 1.5925) / 2) ≤ 0.0000069699 := by
    unfold toRad
    nlinarith [sq_nonneg (π - 3.141593)]
  have hyz : toRad (103.85 - 102.975) / 2 * (toRad (103.85 - 102.975) / 2) ≤ 0.0000583188 := by
    unfold toRad
    nlinarith [sq_nonneg (π - 3.141593)]
  have habs1 := abs_le.mp (Real.abs_cos_le_one (toRad 1.5925))
  have habs2 := abs_le.mp (Real.abs_cos_le_one (toRad 1.29))
  have hcc : cos (toRad 1.5925) * cos (toRad 1.29) ≤ 1 := by
    nlinarith [habs1.1, habs1.2, habs2.1, habs2.2]
  have hsY := mul_self_nonneg (sin (toRad (103.85 - 102.975) / 2))
  nlinarith [hx, hy, hxz, hyz, hcc, hsY]

lemma havA_sg_nonneg : 0 ≤ havA 1.5925 102.975 1.29 103.85 := by
  unfold havA
  have h1 := cos_toRad_pos 1.5925 (by rw [abs_of_pos] <;> norm_num)
  have h2 := cos_toRad_pos 1.29 (by rw [abs_of_pos] <;> norm_num)
  nlinarith [mul_self_nonneg (sin (toRad (1.29 - 1.5925) / 2)),
    mul_self_nonneg (sin (toRad (103.85 - 102.975) / 2)), mul_pos h1 h2]

lemma cos_tlat_lb : (0.9996 : ℝ) ≤ cos (toRad 1.5925) := by
  have h := cos_ge_of_abs_le (toRad 1.5925) 0.0278 ?_ (by norm_num)
  · nlinarith [h]
  · unfold toRad
    rw [abs_of_pos (by positivity)]
    nlinarith [Real.pi_lt_d6, Real.pi_pos]

lemma havA_lower_lon (qlat qlng c2 sy dl aY bY blat : ℝ)
    (hdl : |qlng - 102.975| = dl)
    (haY : aY ≤ dl * 3.141592 / 360) (hbY : dl * 3.141593 / 360 ≤ bY)
    (h0aY : 0 ≤ aY) (hbY1 : bY ≤ 1)
    (hsy : 0 ≤ sy) (hsyle : sy ≤ aY - bY ^ 3 / 6 - 5 * bY ^ 4 / 96)
    (hblat : |qlat| * 3.141593 / 180 ≤ blat) (hblat1 : blat ≤ 1)
    (hc2 : 0 ≤ c2) (hc2le : c2 ≤ 1 - blat ^ 2 / 2 - 5 * blat ^ 4 / 96) :
    0.9996 * c2 * (sy * sy) ≤ havA 1.5925 102.975 qlat qlng := by
  have hπl : (3.141592 : ℝ) < π := Real.pi_gt_d6
  have hπu : π < 3.141593 := Real.pi_lt_d6
  have hπ0 := Real.pi_pos
  have hdl0 : 0 ≤ dl := hdl ▸ abs_nonneg _
  have habsY : |toRad (qlng - 102.975) / 2| = dl * (π / 360) := by
    rw [show toRad (qlng - 102.975) / 2 = (qlng - 102.975) * (π / 360) from by
      unfold toRad; ring]
    rw [abs_mul, abs_of_pos (by positivity : (0 : ℝ) < π / 360), hdl]
  have hYpi : |toRad (qlng - 102.975) / 2| ≤ π := by
    rw [habsY]
    nlinarith
  have hsinabs : sy ≤ |sin (toRad (qlng - 102.975) / 2)| := by
    rw [abs_sin_eq_sin_abs _ hYpi]
    refine le_trans hsyle (sin_ge_of_bounds _ aY bY ?_ ?_ h0aY hbY1)
    · rw [habsY]
      nlinarith
    · rw [habsY]
      nlinarith
  have hsY2 : sy * sy ≤ sin (toRad (qlng - 102.975) / 2) * sin (toRad (qlng - 102.975) / 2) :=
    sin_mul_self_ge_sq _ sy hsy hsinabs
  have hcos2 : c2 ≤ cos (toRad qlat) := by
    refine le_trans hc2le (cos_ge_of_abs_le _ blat ?_ hblat1)
    unfold toRad
    rw [show qlat * π / 180 = qlat * (π / 180) from by ring,
      abs_mul, abs_of_pos (by positivity : (0 : ℝ) < π / 180)]
    nlinarith [abs_nonneg qlat]
  have hcos1 : (0.9996 : ℝ) ≤ cos (toRad 1.5925) := cos_tlat_lb
  have hAB : 0.9996 * c2 ≤ cos (toRad 1.5925) * cos (toRad qlat) :=
    mul_le_mul hcos1 hcos2 hc2 (le_trans (by norm_num) hcos1)
  have h0AB : (0 : ℝ) ≤ 0.9996 * c2 := by positivity
  have hprod : 0.9996 * c2 * (sy * sy) ≤
      cos (toRad 1.5925) * cos (toRad qlat) *
        (sin (toRad (qlng - 102.975) / 2) * sin (toRad (qlng - 102.975) / 2)) :=
    mul_le_mul hAB hsY2 (mul_self_nonneg sy) (le_trans h0AB hAB)
  unfold havA
  nlinarith [hprod, mul_self_nonneg (sin (toRad (qlat - 1.5925) / 2))]

lemma slot1_lt_dubai :
    portDist 1.5925 102.975 singaporePort <
      portDist 1.5925 102.975 (⟨"Dubai", "UAE", (55.27, 25.2), "Middle East"⟩ : GlobalPort) := by
  apply portDist_lt_portDist
  · exact havA_sg_nonneg
  · refine lt_of_le_of_lt havA_sg_upper (lt_of_lt_of_le ?_
      (havA_lower_lon 25.2 55.27 0.901328 0.4027152 47.705 0.416304573 0.416304706 0.43982302
        (by rw [show (55.27 : ℝ) - 102.975 = -(47.705) from by norm_num, abs_neg, abs_of_pos (by norm_num : (0 : ℝ) < 47.705)])
        (by norm_num) (by norm_num) (by norm_num) (by norm_num) (by norm_num) (by norm_num)
        (by rw [abs_of_nonneg (by norm_num : (0 : ℝ) ≤ (25.2 : ℝ))]; norm_num)
        (by norm_num) (by norm_num) (by norm_num)))
    norm_num

lemma slot1_lt_jeddah :
    portDist 1.5925 102.975 singaporePort <
      portDist 1.5925 102.975 (⟨"Jeddah", "Saudi Arabia", (39.19, 21.54), "Middle East"⟩ : GlobalPort) := by
  apply portDist_lt_portDist
  · exact havA_sg_nonneg
  · refine lt_of_le_of_lt havA_sg_upper (lt_of_lt_of_le ?_
      (havA_lower_lon 21.54 39.19 0.928292 0.5228851 63.785 0.556629015 0.556629194 0.375943963
        (by rw [show (39.19 : ℝ) - 102.975 = -(63.785) from by norm_num, abs_neg, abs_of_pos (by norm_num : (0 : ℝ) < 63.785)])
        (by norm_num) (by norm_num) (by norm_num) (by norm_num) (by norm_num) (by norm_num)
        (by rw [abs_of_nonneg (by norm_num : (0 : ℝ) ≤ (21.54 : ℝ))]; norm_num)
        (by norm_num) (by norm_num) (by norm_num)))
    norm_num

lemma slot1_lt_portsaid :
    portDist 1.5925 102.975 singaporePort <
      portDist 1.5925 102.975 (⟨"Port Said", "Egypt", (32.28, 31.26), "Middle East"⟩ : GlobalPort) := by
  apply portDist_lt_portDist
  · exact havA_sg_nonneg
  · refine lt_of_le_of_lt havA_sg_upper (lt_of_lt_of_le ?_
      (havA_lower_lon 31.26 32.28 0.84655 0.5702511 70.695 0.616930129 0.616930326 0.545589985
        (by rw [show (32.28 : ℝ) - 102.975 = -(70.695) from by norm_num, abs_neg, abs_of_pos (by norm_num : (0 : ℝ) < 70.695)])
        (by norm_num) (by norm_num) (by norm_num) (by norm_num) (by norm_num) (by norm_num)
        (by rw [abs_of_nonneg (by norm_num : (0 : ℝ) ≤ (31.26 : ℝ))]; norm_num)
        (by norm_num) (by norm_num) (by norm_num)))
    norm_num

lemma slot1_lt_haifa :
    portDist 1.5925 102.975 singaporePort <
      portDist 1.5925 102.975 (⟨"Haifa", "Israel", (34.99, 32.82), "Middle East"⟩ : GlobalPort) := by
  apply portDist_lt_portDist
  · exact havA_sg_nonneg
  · refine lt_of_le_of_lt havA_sg_upper (lt_of_lt_of_le ?_
      (havA_lower_lon 32.82 34.99 0.830332 0.5520241 67.985 0.593280922 0.593281112 0.572817124
        (by rw [show (34.99 : ℝ) - 102.975 = -(67.985) from by norm_num, abs_neg, abs_of_pos (by norm_num : (0 : ℝ) < 67.985)])
        (by norm_num) (by norm_num) (by norm_num) (by norm_num) (by norm_num) (by norm_num)
        (by rw [abs_of_nonneg (by norm_num : (0 : ℝ) ≤ (32.82 : ℝ))]; norm_num)
        (by norm_num) (by norm_num) (by norm_num)))
    norm_num

lemma slot1_lt_hongkong :
    portDist 1.5925 102.975 singaporePort <
      portDist 1.5925 102.975 (⟨"Hong Kong", "China", (114.17, 22.32), "Asia"⟩ : GlobalPort) := by
  apply portDist_lt_portDist
  · exact havA_sg_nonneg
  · refine lt_of_le_of_lt havA_sg_upper (lt_of_lt_of_le ?_
      (havA_lower_lon 22.32 114.17 0.922923 0.0975346 11.195 0.097694784 0.097694816 0.389557532
        (by rw [show (114.17 : ℝ) - 102.975 = 11.195 from by norm_num, abs_of_pos (by norm_num : (0 : ℝ) < 11.195)])
        (by norm_num) (by norm_num) (by norm_num) (by norm_num) (by norm_num) (by norm_num)
        (by rw [abs_of_nonneg (by norm_num : (0 : ℝ) ≤ (22.32 : ℝ))]; norm_num)
        (by norm_num) (by norm_num) (by norm_num)))
    norm_num

lemma slot1_lt_shanghai :
    portDist 1.5925 102.975 singaporePort <
      portDist 1.5925 102.975 (⟨"Shanghai", "China", (121.47, 31.23), "Asia"⟩ : GlobalPort) := by
  apply portDist_lt_portDist
  · exact havA_sg_nonneg
  · refine lt_of_le_of_lt havA_sg_upper (lt_of_lt_of_le ?_
      (havA_lower_lon 31.23 121.47 0.846854 0.1606632 18.495 0.161399289 0.161399341 0.545066386
        (by rw [show (121.47 : ℝ) - 102.975 = 18.495 from by norm_num, abs_of_pos (by norm_num : (0 : ℝ) < 18.495)])
        (by norm_num) (by norm_num) (by norm_num) (by norm_num) (by norm_num) (by norm_num)
        (by rw [abs_of_nonneg (by norm_num : (0 : ℝ) ≤ (31.23 : ℝ))]; norm_num)
        (by norm_num) (by norm_num) (by norm_num)))
    norm_num

lemma slot1_lt_busan :
    portDist 1.5925 102.975 singaporePort <
      portDist 1.5925 102.975 (⟨"Busan", "South Korea", (129.04, 35.18), "Asia"⟩ : GlobalPort) := by
  apply portDist_lt_portDist
  · exact havA_sg_nonneg
  · refine lt_of_le_of_lt havA_sg_upper (lt_of_lt_of_le ?_
      (havA_lower_lon 35.18 129.04 0.804095 0.2253591 26.065 0.227459987 0.22746006 0.614006899
        (by rw [show (129.04 : ℝ) - 102.975 = 26.065 from by norm_num, abs_of_pos (by norm_num : (0 : ℝ) < 26.065)])
        (by norm_num) (by norm_num) (by norm_num) (by norm_num) (by norm_num) (by norm_num)
        (by rw [abs_of_nonneg (by norm_num : (0 : ℝ) ≤ (35.18 : ℝ))]; norm_num)
        (by norm_num) (by norm_num) (by norm_num)))
    norm_num

lemma slot1_lt_tokyo :
    portDist 1.5925 102.975 singaporePort <
      portDist 1.5925 102.975 (⟨"Tokyo", "Japan", (139.77, 35.68), "Asia"⟩ : GlobalPort) := by
  apply portDist_lt_portDist
  · exact havA_sg_nonneg
  · refine lt_of_le_of_lt havA_sg_upper (lt_of_lt_of_le ?_
      (havA_lower_lon 35.68 139.77 0.798268 0.3150255 36.795 0.321096882 0.321096985 0.622733546
        (by rw [show (139.77 : ℝ) - 102.975 = 36.795 from by norm_num, abs_of_pos (by norm_num : (0 : ℝ) < 36.795)])
        (by norm_num) (by norm_num) (by norm_num) (by norm_num) (by norm_num) (by norm_num)
        (by rw [abs_of_nonneg (by norm_num : (0 : ℝ) ≤ (35.68 : ℝ))]; norm_num)
        (by norm_num) (by norm_num) (by norm_num)))
    norm_num

lemma slot1_lt_mumbai :
    portDist 1.5925 102.975 singaporePort <
      portDist 1.5925 102.975 (⟨"Mumbai", "India", (72.88, 19.08), "Asia"⟩ : GlobalPort) := by
  apply portDist_lt_portDist
  · exact havA_sg_nonneg
  · refine lt_of_le_of_lt havA_sg_upper (lt_of_lt_of_le ?_
      (havA_lower_lon 19.08 72.88 0.943912 0.2593615 30.095 0.262628364 0.262628449 0.333008858
        (by rw [show (72.88 : ℝ) - 102.975 = -(30.095) from by norm_num, abs_neg, abs_of_pos (by norm_num : (0 : ℝ) < 30.095)])
        (by norm_num) (by norm_num) (by norm_num) (by norm_num) (by norm_num) (by norm_num)
        (by rw [abs_of_nonneg (by norm_num : (0 : ℝ) ≤ (19.08 : ℝ))]; norm_num)
        (by norm_num) (by norm_num) (by norm_num)))
    norm_num

lemma slot1_lt_colombo :
    portDist 1.5925 102.975 singaporePort <
      portDist 1.5925 102.975 (⟨"Colombo", "Sri Lanka", (79.85, 6.93), "Asia"⟩ : GlobalPort) := by
  apply portDist_lt_portDist
  · exact havA_sg_nonneg
  · refine lt_of_le_of_lt havA_sg_upper (lt_of_lt_of_le ?_
      (havA_lower_lon 6.93 79.85 0.992674 0.2003475 23.125 0.201803652 0.201803718 0.120951331
        (by rw [show (79.85 : ℝ) - 102.975 = -(23.125) from by norm_num, abs_neg, abs_of_pos (by norm_num : (0 : ℝ) < 23.125)])
        (by norm_num) (by norm_num) (by norm_num) (by norm_num) (by norm_num) (by norm_num)
        (by rw [abs_of_nonneg (by norm_num : (0 : ℝ) ≤ (6.93 : ℝ))]; norm_num)
        (by norm_num) (by norm_num) (by norm_num)))
    norm_num

lemma slot1_lt_jakarta :
    portDist 1.5925 102.975 singaporePort <
      portDist 1.5925 102.975 (⟨"Jakarta", "Indonesia", (106.85, -6.21), "Asia"⟩ : GlobalPort) := by
  apply portDist_lt_portDist
  · exact havA_sg_nonneg
  · refine lt_of_le_of_lt havA_sg_upper (lt_of_lt_of_le ?_
      (havA_lower_lon (-6.21) 106.85 0.994119 0.0338092 3.875 0.033815747 0.033815758 0.108384959
        (by rw [show (106.85 : ℝ) - 102.975 = 3.875 from by norm_num, abs_of_pos (by norm_num : (0 : ℝ) < 3.875)])
        (by norm_num) (by norm_num) (by norm_num) (by norm_num) (by norm_num) (by norm_num)
        (by rw [abs_of_neg (by norm_num : (-6.21 : ℝ) < 0)]; norm_num)
        (by norm_num) (by norm_num) (by norm_num)))
    norm_num

lemma slot1_lt_capetown :
    portDist 1.5925 102.975 singaporePort <
      portDist 1.5925 102.975 (⟨"Cape Town", "South Africa", (18.42, -33.92), "Africa"⟩ : GlobalPort) := by
  apply portDist_lt_portDist
  · exact havA_sg_nonneg
  · refine lt_of_le_of_lt havA_sg_upper (lt_of_lt_of_le ?_
      (havA_lower_lon (-33.92) 18.42 0.81836 0.6554824 84.555 0.737881421 0.737881656 0.592015748
        (by rw [show (18.42 : ℝ) - 102.975 = -(84.555) from by norm_num, abs_neg, abs_of_pos (by norm_num : (0 : ℝ) < 84.555)])
        (by norm_num) (by norm_num) (by norm_num) (by norm_num) (by norm_num) (by norm_num)
        (by rw [abs_of_neg (by norm_num : (-33.92 : ℝ) < 0)]; norm_num)
        (by norm_num) (by norm_num) (by norm_num)))
    norm_num

lemma slot1_lt_durban :
    portDist 1.5925 102.975 singaporePort <
      portDist 1.5925 102.975 (⟨"Durban", "South Africa", (31.03, -29.86), "Africa"⟩ : GlobalPort) := by
  apply portDist_lt_portDist
  · exact havA_sg_nonneg
  · refine lt_of_le_of_lt havA_sg_upper (lt_of_lt_of_le ?_
      (havA_lower_lon (-29.86) 31.03 0.860356 0.5784987 71.945 0.627838434 0.627838635 0.521155373
        (by rw [show (31.03 : ℝ) - 102.975 = -(71.945) from by norm_num, abs_neg, abs_of_pos (by norm_num : (0 : ℝ) < 71.945)])
        (by norm_num) (by norm_num) (by norm_num) (by norm_num) (by norm_num) (by norm_num)
        (by rw [abs_of_neg (by norm_num : (-29.86 : ℝ) < 0)]; norm_num)
        (by norm_num) (by norm_num) (by norm_num)))
    norm_num

lemma slot1_lt_lagos :
    portDist 1.5925 102.975 singaporePort <
      portDist 1.5925 102.975 (⟨"Lagos", "Nigeria", (3.39, 6.45), "Africa"⟩ : GlobalPort) := by
  apply portDist_lt_portDist
  · exact havA_sg_nonneg
  · refine lt_of_le_of_lt havA_sg_upper (lt_of_lt_of_le ?_
      (havA_lower_lon 6.45 3.39 0.993655 0.7299467 99.585 0.869042887 0.869043164 0.11257375
        (by rw [show (3.39 : ℝ) - 102.975 = -(99.585) from by norm_num, abs_neg, abs_of_pos (by norm_num : (0 : ℝ) < 99.585)])
        (by norm_num) (by norm_num) (by norm_num) (by norm_num) (by norm_num) (by norm_num)
        (by rw [abs_of_nonneg (by norm_num : (0 : ℝ) ≤ (6.45 : ℝ))]; norm_num)
        (by norm_num) (by norm_num) (by norm_num)))
    norm_num

lemma slot1_lt_djibouti :
    portDist 1.5925 102.975 singaporePort <
      portDist 1.5925 102.975 (⟨"Djibouti", "Djibouti", (43.15, 11.59), "Africa"⟩ : GlobalPort) := by
  apply portDist_lt_portDist
  · exact havA_sg_nonneg
  · refine lt_of_le_of_lt havA_sg_upper (lt_of_lt_of_le ?_
      (havA_lower_lon 11.59 43.15 0.979453 0.4944864 59.825 0.522071503 0.522071671 0.202283683
        (by rw [show (43.15 : ℝ) - 102.975 = -(59.825) from by norm_num, abs_neg, abs_of_pos (by norm_num : (0 : ℝ) < 59.825)])
        (by norm_num) (by norm_num) (by norm_num) (by norm_num) (by norm_num) (by norm_num)
        (by rw [abs_of_nonneg (by norm_num : (0 : ℝ) ≤ (11.59 : ℝ))]; norm_num)
        (by norm_num) (by norm_num) (by norm_num)))
    norm_num

lemma slot1_lt_mombasa :
    portDist 1.5925 102.975 singaporePort <
      portDist 1.5925 102.975 (⟨"Mombasa", "Kenya", (39.66, -4.05), "Africa"⟩ : GlobalPort) := by
  apply portDist_lt_portDist
  · exact havA_sg_nonneg
  · refine lt_of_le_of_lt havA_sg_upper (lt_of_lt_of_le ?_
      (havA_lower_lon (-4.05) 39.66 0.9975 0.51956 63.315 0.552527493 0.552527669 0.070685843
        (by rw [show (39.66 : ℝ) - 102.975 = -(63.315) from by norm_num, abs_neg, abs_of_pos (by norm_num : (0 : ℝ) < 63.315)])
        (by norm_num) (by norm_num) (by norm_num) (by norm_num) (by norm_num) (by norm_num)
        (by rw [abs_of_neg (by norm_num : (-4.05 : ℝ) < 0)]; norm_num)
        (by norm_num) (by norm_num) (by norm_num)))
    norm_num

lemma slot1_lt_suez :
    portDist 1.5925 102.975 singaporePort <
      portDist 1.5925 102.975 (⟨"Suez Canal", "Egypt", (32.35, 30.44), "Middle East"⟩ : GlobalPort) := by
  apply portDist_lt_portDist
  · exact havA_sg_nonneg
  · refine lt_of_le_of_lt havA_sg_upper (lt_of_lt_of_le ?_
      (havA_lower_lon 30.44 32.35 0.854722 0.5697862 70.625 0.616319263 0.616319461 0.531278283
        (by rw [show (32.35 : ℝ) - 102.975 = -(70.625) from by norm_num, abs_neg, abs_of_pos (by norm_num : (0 : ℝ) < 70.625)])
        (by norm_num) (by norm_num) (by norm_num) (by norm_num) (by norm_num) (by norm_num)
        (by rw [abs_of_nonneg (by norm_num : (0 : ℝ) ≤ (30.44 : ℝ))]; norm_num)
        (by norm_num) (by norm_num) (by norm_num)))
    norm_num

lemma slot1_lt_malacca :
    portDist 1.5925 102.975 singaporePort <
      portDist 1.5925 102.975 (⟨"Strait of Malacca", "Malaysia", (100.35, 2.5), "Asia"⟩ : GlobalPort) := by
  apply portDist_lt_portDist
  · exact havA_sg_nonneg
  · refine lt_of_le_of_lt havA_sg_upper (lt_of_lt_of_le ?_
      (havA_lower_lon 2.5 100.35 0.999047 0.0229054 2.625 0.022907441 0.022907449 0.043633237
        (by rw [show (100.35 : ℝ) - 102.975 = -(2.625) from by norm_num, abs_neg, abs_of_pos (by norm_num : (0 : ℝ) < 2.625)])
        (by norm_num) (by norm_num) (by norm_num) (by norm_num) (by norm_num) (by norm_num)
        (by rw [abs_of_nonneg (by norm_num : (0 : ℝ) ≤ (2.5 : ℝ))]; norm_num)
        (by norm_num) (by norm_num) (by norm_num)))
    norm_num

lemma singapore_mem_slot1cands :
    singaporePort ∈ (MAJOR_PORTS.filter (fun p => p.name ∉ (∅ : Finset String))).filter
      (fun p => decide (p.region ∈ ["Africa", "Middle East", "Asia"])) := by
  refine List.mem_filter.mpr ⟨List.mem_filter.mpr ⟨singaporePort_mem, ?_⟩, ?_⟩
  · simp
  · decide

lemma slot1_cands_eq :
    fipCandidates (some ["Africa", "Middle East", "Asia"]) (∅ : Finset String) =
      (MAJOR_PORTS.filter (fun p => p.name ∉ (∅ : Finset String))).filter
        (fun p => decide (p.region ∈ ["Africa", "Middle East", "Asia"])) := by
  unfold fipCandidates
  simp only
  rw [if_pos]
  exact (List.length_pos.mpr (List.ne_nil_of_mem singapore_mem_slot1cands)).ne'

lemma slot1_sel :
    selectBest 1.5925 102.975
      (fipCandidates (some ["Africa", "Middle East", "Asia"]) (∅ : Finset String)) =
      some singaporePort := by
  rw [slot1_cands_eq]
  apply selectBest_eq_of_strict 1.5925 102.975 _ singaporePort singapore_mem_slot1cands
  intro q hq hne
  have hqM : q ∈ MAJOR_PORTS := List.mem_of_mem_filter (List.mem_of_mem_filter hq)
  have hreg := List.of_mem_filter hq
  fin_cases hqM
  · exact absurd hreg (by decide)
  · exact absurd hreg (by decide)
  · exact absurd hreg (by decide)
  · exact absurd hreg (by decide)
  · exact absurd hreg (by decide)
  · exact absurd hreg (by decide)
  · exact absurd hreg (by decide)
  · exact absurd hreg (by decide)
  · exact slot1_lt_dubai
  · exact slot1_lt_jeddah
  · exact slot1_lt_portsaid
  · exact slot1_lt_haifa
  · exact absurd rfl hne
  · exact slot1_lt_hongkong
  · exact slot1_lt_shanghai
  · exact slot1_lt_busan
  · exact slot1_lt_tokyo
  · exact slot1_lt_mumbai
  · exact slot1_lt_colombo
  · exact slot1_lt_jakarta
  · exact slot1_lt_capetown
  · exact slot1_lt_durban
  · exact slot1_lt_lagos
  · exact slot1_lt_djibouti
  · exact slot1_lt_mombasa
  · exact absurd hreg (by decide)
  · exact absurd hreg (by decide)
  · exact absurd hreg (by decide)
  · exact absurd hreg (by decide)
  · exact absurd hreg (by decide)
  · exact absurd hreg (by decide)
  · exact absurd hreg (by decide)
  · exact absurd hreg (by decide)
  · exact absurd hreg (by decide)
  · exact absurd hreg (by decide)
  · exact absurd hreg (by decide)
  · exact slot1_lt_suez
  · exact slot1_lt_malacca
  · exact absurd hreg (by decide)

lemma safe_selection :
    ∃ l2, findIntermediatePorts singaporePort.coordinates malaccaPort.coordinates 3
        (some ["Africa", "Middle East", "Asia"]) [] = some (singaporePort :: l2) := by
  obtain ⟨l2, hl2, _, _, _⟩ := fipGo_spec singaporePort.coordinates malaccaPort.coordinates 3
    (some ["Africa", "Middle East", "Asia"]) [2, 3] (insert singaporePort.name ∅)
    (by simp)
  refine ⟨l2, ?_⟩
  unfold findIntermediatePorts
  rw [show (([] : List GlobalPort).map GlobalPort.name).toFinset = (∅ : Finset String)
    from rfl]
  rw [show List.range' 1 3 = [1, 2, 3] from rfl]
  rw [fipGo]
  have hsel1 : selectBest
      (singaporePort.coordinates.2 + (malaccaPort.coordinates.2 - singaporePort.coordinates.2) *
        (((1 : ℕ) : ℝ) / (((3 : ℕ) : ℝ) + 1)))
      (singaporePort.coordinates.1 + (malaccaPort.coordinates.1 - singaporePort.coordinates.1) *
        (((1 : ℕ) : ℝ) / (((3 : ℕ) : ℝ) + 1)))
      (fipCandidates (some ["Africa", "Middle East", "Asia"]) (∅ : Finset String)) =
      some singaporePort := by
    rw [show singaporePort.coordinates.2 +
        (malaccaPort.coordinates.2 - singaporePort.coordinates.2) *
          (((1 : ℕ) : ℝ) / (((3 : ℕ) : ℝ) + 1)) = 1.5925 from by
        norm_num [singaporePort, malaccaPort]]
    rw [show singaporePort.coordinates.1 +
        (malaccaPort.coordinates.1 - singaporePort.coordinates.1) *
          (((1 : ℕ) : ℝ) / (((3 : ℕ) : ℝ) + 1)) = 102.975 from by
        norm_num [singaporePort, malaccaPort]]
    exact slot1_sel
  rw [hsel1]
  dsimp only
  rw [hl2]
  rfl

/-- C10: the intermediate selection never excludes the route's endpoint ports, so
a synthesized route can pick an endpoint again as an intermediate: with the origin
at Singapore's own coordinates and the destination at the Strait of Malacca's,
the Standard corridor's waypointNames start with "Singapore" and contain
"Singapore" again in intermediate position, so a name repeats in that route. -/
theorem synthesized_route_repeats_endpoint (rd : RouteData) :
    ∃ rs r, calculateRoutes rd singaporePort.coordinates malaccaPort.coordinates = some rs ∧
      r ∈ rs ∧ r.waypointNames.head? = some "Singapore" ∧
      "Singapore" ∈ intermediateNames r ∧ ¬ r.waypointNames.Nodup := by
  obtain ⟨l2, hsafe⟩ := safe_selection
  have hsafelen : (singaporePort :: l2).length = 3 :=
    findIntermediatePorts_length _ _ _ _ _ _ hsafe
  obtain ⟨alt, halt, haltlen, _, _⟩ := findIntermediatePorts_spec singaporePort.coordinates
    malaccaPort.coordinates 2 (some ["Europe", "Asia"]) (singaporePort :: l2)
    (by omega)
  obtain ⟨express, hexpr, _, _, _⟩ := findIntermediatePorts_spec singaporePort.coordinates
    malaccaPort.coordinates 1 none ((singaporePort :: l2) ++ alt)
    (by rw [List.length_append, hsafelen, haltlen]; norm_num)
  have hdyn : calculateDynamicRoutes singaporePort malaccaPort =
      some [dynRoute "dyn-safe-1" "Standard Corridor" "low" "#5a9a7a" 2 35
          "Calculated secure route via major hubs" singaporePort malaccaPort
          (singaporePort :: l2),
        dynRoute "dyn-safe-2" "Alternative Corridor" "low" "#6ba889" 2 35
          "Secondary secure routing option" singaporePort malaccaPort alt,
        dynRoute "dyn-express" "Express Route" "medium" "#e8a547" 2.5 38
          "Direct routing with moderate risk profile" singaporePort malaccaPort express] := by
    unfold calculateDynamicRoutes
    rw [hsafe]
    dsimp only
    rw [halt]
    dsimp only
    rw [hexpr]
  have hcalc : calculateRoutes rd singaporePort.coordinates malaccaPort.coordinates =
      calculateDynamicRoutes singaporePort malaccaPort := by
    unfold calculateRoutes
    rw [resolve_singapore]
    dsimp only
    rw [show singaporePort.name = "Singapore" from rfl, resolve_malacca]
    rw [if_neg (by decide : ¬ isShanghaiHamburg singaporePort malaccaPort)]
  refine ⟨_, dynRoute "dyn-safe-1" "Standard Corridor" "low" "#5a9a7a" 2 35
      "Calculated secure route via major hubs" singaporePort malaccaPort
      (singaporePort :: l2),
    by rw [hcalc]; exact hdyn, List.mem_cons_self _ _, rfl, ?_, ?_⟩
  · rw [intermediateNames_dynRoute]
    exact List.mem_map_of_mem GlobalPort.name (List.mem_cons_self _ _)
  · rw [dynRoute_waypointNames]
    intro h
    apply (List.nodup_cons.mp h).1
    rw [List.map_cons]
    exact List.mem_append_left _ (List.mem_cons_self _ _)

end

end Globot
